import Mathlib

/-!
# Flattening of API models into attribute records

A shallow embedding of two data sources of the provider:

* `ibm/service/vpc/data_source_ibm_is_virtual_network_interface.go`
* `ibm/service/power/data_source_ibm_pi_snapshot.go`

Go pointers (`*string`, `*T`) are `Option`s, `nil` being `none`.  A Go
`map[string]interface{}` is an association list with distinct keys, written to
with `AttrMap.store` (the assignment `m[k] = v`) and read with
`AttrMap.lookup`.  A Go function returning `(map, error)` returns a pair whose
second component is `none` for a `nil` error.
-/

set_option autoImplicit false
set_option linter.dupNamespace false

/-! ## Attribute values and records -/

/-- The values the two data sources put into a `map[string]interface{}` or hand
to `d.Set`: strings, 64-bit integers, string and bool pointers, string maps and
sequences of records. -/
inductive Value where
  | str (s : String)
  | int (n : Int)
  | strPtr (p : Option String)
  | boolPtr (p : Option Bool)
  | strMap (m : List (String × String))
  | list (items : List (List (String × Value)))

/-- A Go `map[string]interface{}`. -/
abbrev AttrMap := List (String × Value)

/-- The assignment `m[k] = v`: overwrite the binding of `k`, or add one. -/
def AttrMap.store : AttrMap → String → Value → AttrMap
  | [], k, v => [(k, v)]
  | (k0, v0) :: rest, k, v =>
    if k0 = k then (k, v) :: rest else (k0, v0) :: AttrMap.store rest k v

/-- The lookup `v, ok := m[k]`: `none` when the key is not bound. -/
def AttrMap.lookup : AttrMap → String → Option Value
  | [], _ => none
  | (k0, v0) :: rest, k => if k0 = k then some v0 else AttrMap.lookup rest k

/-- The keys bound in a record. -/
def AttrMap.keys (m : AttrMap) : List String := m.map Prod.fst

/-- A Go `error`, by its message; `none` is the `nil` error. -/
abbrev GoError := Option String

/-- A Go slice `[]T`: `none` is the `nil` slice. -/
abbrev Slice (α : Type) := Option (List α)

/-- The elements a `range` loop over the slice visits, in order: none for the
`nil` slice. -/
def Slice.elems {α : Type} : Slice α → List α
  | none => []
  | some xs => xs

/-- A `strfmt.DateTime`, an instant; how it prints is left to the library. -/
structure strfmt.DateTime where
  nanos : Int

/-- The method `err.Error()`, and what the verb `%s` prints for an error. -/
def GoError.Error : GoError → String
  | some msg => msg
  | none => "%!s(<nil>)"

/-- `fmt.Errorf(format, args...)`: the error whose message is the text of the
format before its verbs followed by what the verbs print. -/
def fmt.Errorf (text : String) (printed : String) : GoError := some (text ++ printed)

/-! ## The host framework: diagnostics and resource data -/

inductive diag.Severity where
  | Error
  | Warning

structure diag.Diagnostic where
  Severity : diag.Severity
  Summary : String

/-- The type `diag.Diagnostics`; the `nil` value a successful read returns is `[]`. -/
abbrev diag.Diagnostics := List diag.Diagnostic

/-- The function `diag.FromErr` of the plugin SDK. -/
def diag.FromErr : GoError → diag.Diagnostics
  | none => []
  | some msg => [{ Severity := diag.Severity.Error, Summary := msg }]

/-- The state behind `*schema.ResourceData`: the identifier and the attributes
written so far (the configured arguments included). -/
structure ResourceData where
  id : String
  attrs : AttrMap

/-- How a statement of a read operation ends: control goes on with a value,
the operation has returned diagnostics, or it has panicked on a nil
dereference.  The resource data is carried along in the first two cases. -/
inductive Outcome (α : Type) where
  | next (a : α) (d : ResourceData)
  | returned (diags : diag.Diagnostics) (d : ResourceData)
  | panicked

/-- A statement of a read operation, run on the resource data. -/
def ReadM (α : Type) := ResourceData → Outcome α

instance : Monad ReadM where
  pure a := fun d => Outcome.next a d
  bind x f := fun d =>
    match x d with
    | Outcome.next a d1 => f a d1
    | Outcome.returned diags d1 => Outcome.returned diags d1
    | Outcome.panicked => Outcome.panicked

/-- The statement `return diags`. -/
def ReadM.returnDiags {α : Type} (diags : diag.Diagnostics) : ReadM α :=
  fun d => Outcome.returned diags d

/-- The dereference `*p`, a panic on `nil`. -/
def ReadM.deref {α : Type} : Option α → ReadM α
  | some a => fun d => Outcome.next a d
  | none => fun _ => Outcome.panicked

/-- The call `d.SetId(v)`. -/
def ResourceData.SetId (v : String) : ReadM Unit :=
  fun d => Outcome.next () { d with id := v }

/-- The statement `if c { return diags }`. -/
def ReadM.returnIf (c : Bool) (diags : diag.Diagnostics) : ReadM Unit :=
  fun d => if c then Outcome.returned diags d else Outcome.next () d

/-- The string `d.Get(key).(string)` of a string attribute: the zero value when
nothing is set. -/
def ResourceData.getString (d : ResourceData) (key : String) : String :=
  match AttrMap.lookup d.attrs key with
  | some (Value.str s) => s
  | _ => ""

/-- The call `d.Get(key).(string)`. -/
def ResourceData.GetString (key : String) : ReadM String :=
  fun d => Outcome.next (d.getString key) d

/-- The call `d.Set(key, value)`.  Whether the SDK accepts the value for the
key is its business, given here as `setError`; an accepted value is written, a
refused one leaves the data as it was and the error is returned. -/
def ResourceData.Set (setError : String → Value → GoError) (key : String) (value : Value) :
    ReadM GoError :=
  fun d =>
    match setError key value with
    | none => Outcome.next none { d with attrs := AttrMap.store d.attrs key value }
    | some e => Outcome.next (some e) d

namespace vpc

/-! ## Models of `vpcbetav1` used by the virtual network interface data source -/

structure ReservedIPReferenceDeleted where
  MoreInfo : Option String

structure ReservedIPReference where
  Address : Option String
  Deleted : Option ReservedIPReferenceDeleted
  Href : Option String
  ID : Option String
  Name : Option String
  ResourceType : Option String

structure ResourceGroupReference where
  Href : Option String
  ID : Option String
  Name : Option String

structure SecurityGroupReferenceDeleted where
  MoreInfo : Option String

structure SecurityGroupReference where
  CRN : Option String
  Deleted : Option SecurityGroupReferenceDeleted
  Href : Option String
  ID : Option String
  Name : Option String

structure SubnetReferenceDeleted where
  MoreInfo : Option String

structure SubnetReference where
  CRN : Option String
  Deleted : Option SubnetReferenceDeleted
  Href : Option String
  ID : Option String
  Name : Option String
  ResourceType : Option String

structure ShareMountTargetReferenceDeleted where
  MoreInfo : Option String

structure VirtualNetworkInterfaceTarget where
  Deleted : Option ShareMountTargetReferenceDeleted
  Href : Option String
  ID : Option String
  Name : Option String
  ResourceType : Option String

structure VirtualNetworkInterfaceTargetShareMountTargetReference where
  Deleted : Option ShareMountTargetReferenceDeleted
  Href : Option String
  ID : Option String
  Name : Option String
  ResourceType : Option String

structure VPCReferenceDeleted where
  MoreInfo : Option String

structure VPCReference where
  CRN : Option String
  Deleted : Option VPCReferenceDeleted
  Href : Option String
  ID : Option String
  Name : Option String
  ResourceType : Option String

structure ZoneReference where
  Href : Option String
  Name : Option String

/-- A value of the interface type `VirtualNetworkInterfaceTargetIntf`, by its
dynamic type: a non-nil pointer to one of the two structs the resolver knows,
or a value of some other implementing type, named by `typeName`. -/
inductive VirtualNetworkInterfaceTargetIntf where
  | shareMountTargetReference (m : VirtualNetworkInterfaceTargetShareMountTargetReference)
  | target (m : VirtualNetworkInterfaceTarget)
  | other (typeName : String)

/-! ## The flatteners

Every flattener takes the pointee of its non-nil `model` argument. -/

def dataSourceIBMIsVirtualNetworkInterfaceReservedIPReferenceDeletedToMap
    (model : ReservedIPReferenceDeleted) : AttrMap × GoError := Id.run do
  let mut modelMap : AttrMap := []
  if let some moreInfo := model.MoreInfo then
    modelMap := AttrMap.store modelMap "more_info" (Value.str moreInfo)
  return (modelMap, none)

def dataSourceIBMIsVirtualNetworkInterfaceReservedIPReferenceToMap
    (model : ReservedIPReference) : AttrMap × GoError := Id.run do
  let mut modelMap : AttrMap := []
  if let some address := model.Address then
    modelMap := AttrMap.store modelMap "address" (Value.str address)
  if let some deleted := model.Deleted then
    let (deletedMap, err) :=
      dataSourceIBMIsVirtualNetworkInterfaceReservedIPReferenceDeletedToMap deleted
    if err ≠ none then
      return (modelMap, err)
    modelMap := AttrMap.store modelMap "deleted" (Value.list [deletedMap])
  if let some href := model.Href then
    modelMap := AttrMap.store modelMap "href" (Value.str href)
  if let some id := model.ID then
    modelMap := AttrMap.store modelMap "id" (Value.str id)
  if let some name := model.Name then
    modelMap := AttrMap.store modelMap "name" (Value.str name)
  if let some resourceType := model.ResourceType then
    modelMap := AttrMap.store modelMap "resource_type" (Value.str resourceType)
  return (modelMap, none)

def dataSourceIBMIsVirtualNetworkInterfaceResourceGroupReferenceToMap
    (model : ResourceGroupReference) : AttrMap × GoError := Id.run do
  let mut modelMap : AttrMap := []
  if let some href := model.Href then
    modelMap := AttrMap.store modelMap "href" (Value.str href)
  if let some id := model.ID then
    modelMap := AttrMap.store modelMap "id" (Value.str id)
  if let some name := model.Name then
    modelMap := AttrMap.store modelMap "name" (Value.str name)
  return (modelMap, none)

def dataSourceIBMIsVirtualNetworkInterfaceSecurityGroupReferenceDeletedToMap
    (model : SecurityGroupReferenceDeleted) : AttrMap × GoError := Id.run do
  let mut modelMap : AttrMap := []
  if let some moreInfo := model.MoreInfo then
    modelMap := AttrMap.store modelMap "more_info" (Value.str moreInfo)
  return (modelMap, none)

def dataSourceIBMIsVirtualNetworkInterfaceSecurityGroupReferenceToMap
    (model : SecurityGroupReference) : AttrMap × GoError := Id.run do
  let mut modelMap : AttrMap := []
  if let some crn := model.CRN then
    modelMap := AttrMap.store modelMap "crn" (Value.str crn)
  if let some deleted := model.Deleted then
    let (deletedMap, err) :=
      dataSourceIBMIsVirtualNetworkInterfaceSecurityGroupReferenceDeletedToMap deleted
    if err ≠ none then
      return (modelMap, err)
    modelMap := AttrMap.store modelMap "deleted" (Value.list [deletedMap])
  if let some href := model.Href then
    modelMap := AttrMap.store modelMap "href" (Value.str href)
  if let some id := model.ID then
    modelMap := AttrMap.store modelMap "id" (Value.str id)
  if let some name := model.Name then
    modelMap := AttrMap.store modelMap "name" (Value.str name)
  return (modelMap, none)

def dataSourceIBMIsVirtualNetworkInterfaceSubnetReferenceDeletedToMap
    (model : SubnetReferenceDeleted) : AttrMap × GoError := Id.run do
  let mut modelMap : AttrMap := []
  if let some moreInfo := model.MoreInfo then
    modelMap := AttrMap.store modelMap "more_info" (Value.str moreInfo)
  return (modelMap, none)

def dataSourceIBMIsVirtualNetworkInterfaceSubnetReferenceToMap
    (model : SubnetReference) : AttrMap × GoError := Id.run do
  let mut modelMap : AttrMap := []
  if let some crn := model.CRN then
    modelMap := AttrMap.store modelMap "crn" (Value.str crn)
  if let some deleted := model.Deleted then
    let (deletedMap, err) :=
      dataSourceIBMIsVirtualNetworkInterfaceSubnetReferenceDeletedToMap deleted
    if err ≠ none then
      return (modelMap, err)
    modelMap := AttrMap.store modelMap "deleted" (Value.list [deletedMap])
  if let some href := model.Href then
    modelMap := AttrMap.store modelMap "href" (Value.str href)
  if let some id := model.ID then
    modelMap := AttrMap.store modelMap "id" (Value.str id)
  if let some name := model.Name then
    modelMap := AttrMap.store modelMap "name" (Value.str name)
  if let some resourceType := model.ResourceType then
    modelMap := AttrMap.store modelMap "resource_type" (Value.str resourceType)
  return (modelMap, none)

def dataSourceIBMIsVirtualNetworkInterfaceShareMountTargetReferenceDeletedToMap
    (model : ShareMountTargetReferenceDeleted) : AttrMap × GoError := Id.run do
  let mut modelMap : AttrMap := []
  if let some moreInfo := model.MoreInfo then
    modelMap := AttrMap.store modelMap "more_info" (Value.str moreInfo)
  return (modelMap, none)

def dataSourceIBMIsVirtualNetworkInterfaceVirtualNetworkInterfaceTargetShareMountTargetReferenceToMap
    (model : VirtualNetworkInterfaceTargetShareMountTargetReference) : AttrMap × GoError := Id.run do
  let mut modelMap : AttrMap := []
  if let some deleted := model.Deleted then
    let (deletedMap, err) :=
      dataSourceIBMIsVirtualNetworkInterfaceShareMountTargetReferenceDeletedToMap deleted
    if err ≠ none then
      return (modelMap, err)
    modelMap := AttrMap.store modelMap "deleted" (Value.list [deletedMap])
  if let some href := model.Href then
    modelMap := AttrMap.store modelMap "href" (Value.str href)
  if let some id := model.ID then
    modelMap := AttrMap.store modelMap "id" (Value.str id)
  if let some name := model.Name then
    modelMap := AttrMap.store modelMap "name" (Value.str name)
  if let some resourceType := model.ResourceType then
    modelMap := AttrMap.store modelMap "resource_type" (Value.str resourceType)
  return (modelMap, none)

/-- The comma-ok type assertion
`model.(*vpcbetav1.VirtualNetworkInterfaceTargetShareMountTargetReference)`. -/
def VirtualNetworkInterfaceTargetIntf.assertShareMountTargetReference :
    VirtualNetworkInterfaceTargetIntf →
      Option VirtualNetworkInterfaceTargetShareMountTargetReference
  | .shareMountTargetReference m => some m
  | _ => none

/-- The comma-ok type assertion `model.(*vpcbetav1.VirtualNetworkInterfaceTarget)`. -/
def VirtualNetworkInterfaceTargetIntf.assertVirtualNetworkInterfaceTarget :
    VirtualNetworkInterfaceTargetIntf → Option VirtualNetworkInterfaceTarget
  | .target m => some m
  | _ => none

/-- The resolver of the polymorphic `target`.  Its map result is `none` for
the `nil` map of the last branch. -/
def dataSourceIBMIsVirtualNetworkInterfaceVirtualNetworkInterfaceTargetToMap
    (model : VirtualNetworkInterfaceTargetIntf) : Option AttrMap × GoError := Id.run do
  if let some model := model.assertShareMountTargetReference then
    let (modelMap, err) :=
      dataSourceIBMIsVirtualNetworkInterfaceVirtualNetworkInterfaceTargetShareMountTargetReferenceToMap
        model
    return (some modelMap, err)
  else if let some model := model.assertVirtualNetworkInterfaceTarget then
    let mut modelMap : AttrMap := []
    if let some deleted := model.Deleted then
      let (deletedMap, err) :=
        dataSourceIBMIsVirtualNetworkInterfaceShareMountTargetReferenceDeletedToMap deleted
      if err ≠ none then
        return (some modelMap, err)
      modelMap := AttrMap.store modelMap "deleted" (Value.list [deletedMap])
    if let some href := model.Href then
      modelMap := AttrMap.store modelMap "href" (Value.str href)
    if let some id := model.ID then
      modelMap := AttrMap.store modelMap "id" (Value.str id)
    if let some name := model.Name then
      modelMap := AttrMap.store modelMap "name" (Value.str name)
    if let some resourceType := model.ResourceType then
      modelMap := AttrMap.store modelMap "resource_type" (Value.str resourceType)
    return (some modelMap, none)
  else
    return (none, some "Unrecognized vpcbetav1.VirtualNetworkInterfaceTargetIntf subtype encountered")

def dataSourceIBMIsVirtualNetworkInterfaceVPCReferenceDeletedToMap
    (model : VPCReferenceDeleted) : AttrMap × GoError := Id.run do
  let mut modelMap : AttrMap := []
  if let some moreInfo := model.MoreInfo then
    modelMap := AttrMap.store modelMap "more_info" (Value.str moreInfo)
  return (modelMap, none)

def dataSourceIBMIsVirtualNetworkInterfaceVPCReferenceToMap
    (model : VPCReference) : AttrMap × GoError := Id.run do
  let mut modelMap : AttrMap := []
  if let some crn := model.CRN then
    modelMap := AttrMap.store modelMap "crn" (Value.str crn)
  if let some deleted := model.Deleted then
    let (deletedMap, err) :=
      dataSourceIBMIsVirtualNetworkInterfaceVPCReferenceDeletedToMap deleted
    if err ≠ none then
      return (modelMap, err)
    modelMap := AttrMap.store modelMap "deleted" (Value.list [deletedMap])
  if let some href := model.Href then
    modelMap := AttrMap.store modelMap "href" (Value.str href)
  if let some id := model.ID then
    modelMap := AttrMap.store modelMap "id" (Value.str id)
  if let some name := model.Name then
    modelMap := AttrMap.store modelMap "name" (Value.str name)
  if let some resourceType := model.ResourceType then
    modelMap := AttrMap.store modelMap "resource_type" (Value.str resourceType)
  return (modelMap, none)

def dataSourceIBMIsVirtualNetworkInterfaceZoneReferenceToMap
    (model : ZoneReference) : AttrMap × GoError := Id.run do
  let mut modelMap : AttrMap := []
  if let some href := model.Href then
    modelMap := AttrMap.store modelMap "href" (Value.str href)
  if let some name := model.Name then
    modelMap := AttrMap.store modelMap "name" (Value.str name)
  return (modelMap, none)

/-! ## The read operation -/

structure VirtualNetworkInterface where
  AutoDelete : Option Bool
  CreatedAt : Option strfmt.DateTime
  CRN : Option String
  Href : Option String
  ID : Option String
  LifecycleState : Option String
  Name : Option String
  PrimaryIP : Option ReservedIPReference
  ResourceGroup : Option ResourceGroupReference
  ResourceType : Option String
  SecurityGroups : Slice SecurityGroupReference
  Subnet : Option SubnetReference
  Target : Option VirtualNetworkInterfaceTargetIntf
  VPC : Option VPCReference
  Zone : Option ZoneReference

structure GetVirtualNetworkInterfaceOptions where
  ID : Option String

/-- The API client, by what its one call returns: the model, the response as
`%s` prints it, and the error. -/
structure VpcbetaV1 where
  GetVirtualNetworkInterfaceWithContext :
    GetVirtualNetworkInterfaceOptions → Option VirtualNetworkInterface × String × GoError

/-- The value `meta.(conns.ClientSession)`, by what `VpcV1BetaAPI()` returns. -/
structure ClientSession where
  VpcV1BetaAPI : Option VpcbetaV1 × GoError

/-- What the read takes from outside the file: the verdict of `d.Set` and
`flex.DateTimeToString`. -/
structure Host where
  setError : String → Value → GoError
  DateTimeToString : Option strfmt.DateTime → String

/-- The loop `for _, modelItem := range items` of the read over the security
groups, `securityGroups` being the sequence built so far. -/
def dataSourceIBMIsVirtualNetworkInterfaceRead.rangeSecurityGroups (items : List SecurityGroupReference)
    (securityGroups : List AttrMap) : ReadM (List AttrMap) := do
  let mut securityGroups := securityGroups
  for modelItem in items do
    let result := dataSourceIBMIsVirtualNetworkInterfaceSecurityGroupReferenceToMap modelItem
    let modelMap := result.1
    let err := result.2
    ReadM.returnIf err.isSome (diag.FromErr err)
    securityGroups := securityGroups ++ [modelMap]
  pure securityGroups

def dataSourceIBMIsVirtualNetworkInterfaceRead (host : Host) (session : ClientSession) :
    ReadM Unit := do
  let vpcbetaClient := session.VpcV1BetaAPI.1
  let err := session.VpcV1BetaAPI.2
  ReadM.returnIf err.isSome (diag.FromErr err)

  let id ← ResourceData.GetString "virtual_network_interface"
  let getVirtualNetworkInterfaceOptions : GetVirtualNetworkInterfaceOptions := { ID := some id }

  let vpcbetaClient ← ReadM.deref vpcbetaClient
  let result :=
    vpcbetaClient.GetVirtualNetworkInterfaceWithContext getVirtualNetworkInterfaceOptions
  let virtualNetworkInterface := result.1
  let response := result.2.1
  let err := result.2.2
  ReadM.returnIf err.isSome (diag.FromErr
    (fmt.Errorf "GetVirtualNetworkInterfaceWithContext failed " (err.Error ++ "\n" ++ response)))

  let virtualNetworkInterface ← ReadM.deref virtualNetworkInterface
  let id ← ReadM.deref virtualNetworkInterface.ID
  ResourceData.SetId id

  let err ← ResourceData.Set host.setError "auto_delete" (Value.boolPtr virtualNetworkInterface.AutoDelete)
  ReadM.returnIf err.isSome (diag.FromErr (fmt.Errorf "Error setting auto_delete: " err.Error))

  let err ← ResourceData.Set host.setError "created_at" (Value.str (host.DateTimeToString virtualNetworkInterface.CreatedAt))
  ReadM.returnIf err.isSome (diag.FromErr (fmt.Errorf "Error setting created_at: " err.Error))

  let err ← ResourceData.Set host.setError "crn" (Value.strPtr virtualNetworkInterface.CRN)
  ReadM.returnIf err.isSome (diag.FromErr (fmt.Errorf "Error setting crn: " err.Error))

  let err ← ResourceData.Set host.setError "href" (Value.strPtr virtualNetworkInterface.Href)
  ReadM.returnIf err.isSome (diag.FromErr (fmt.Errorf "Error setting href: " err.Error))

  let err ← ResourceData.Set host.setError "lifecycle_state" (Value.strPtr virtualNetworkInterface.LifecycleState)
  ReadM.returnIf err.isSome (diag.FromErr (fmt.Errorf "Error setting lifecycle_state: " err.Error))

  let err ← ResourceData.Set host.setError "name" (Value.strPtr virtualNetworkInterface.Name)
  ReadM.returnIf err.isSome (diag.FromErr (fmt.Errorf "Error setting name: " err.Error))

  let primaryIP : List AttrMap := []
  let primaryIP ← (match virtualNetworkInterface.PrimaryIP with
    | some model => do
      let result := dataSourceIBMIsVirtualNetworkInterfaceReservedIPReferenceToMap model
      let modelMap := result.1
      let err := result.2
      ReadM.returnIf err.isSome (diag.FromErr err)
      pure (primaryIP ++ [modelMap])
    | none => pure primaryIP)
  let err ← ResourceData.Set host.setError "primary_ip" (Value.list primaryIP)
  ReadM.returnIf err.isSome (diag.FromErr (fmt.Errorf "Error setting primary_ip " err.Error))

  let resourceGroup : List AttrMap := []
  let resourceGroup ← (match virtualNetworkInterface.ResourceGroup with
    | some model => do
      let result := dataSourceIBMIsVirtualNetworkInterfaceResourceGroupReferenceToMap model
      let modelMap := result.1
      let err := result.2
      ReadM.returnIf err.isSome (diag.FromErr err)
      pure (resourceGroup ++ [modelMap])
    | none => pure resourceGroup)
  let err ← ResourceData.Set host.setError "resource_group" (Value.list resourceGroup)
  ReadM.returnIf err.isSome (diag.FromErr (fmt.Errorf "Error setting resource_group " err.Error))

  let err ← ResourceData.Set host.setError "resource_type" (Value.strPtr virtualNetworkInterface.ResourceType)
  ReadM.returnIf err.isSome (diag.FromErr (fmt.Errorf "Error setting resource_type: " err.Error))

  let securityGroups : List AttrMap := []
  let securityGroups ←
    (if virtualNetworkInterface.SecurityGroups.isSome then
      dataSourceIBMIsVirtualNetworkInterfaceRead.rangeSecurityGroups
        (Slice.elems virtualNetworkInterface.SecurityGroups) securityGroups
    else pure securityGroups)
  let err ← ResourceData.Set host.setError "security_groups" (Value.list securityGroups)
  ReadM.returnIf err.isSome (diag.FromErr (fmt.Errorf "Error setting security_groups " err.Error))

  let subnet : List AttrMap := []
  let subnet ← (match virtualNetworkInterface.Subnet with
    | some model => do
      let result := dataSourceIBMIsVirtualNetworkInterfaceSubnetReferenceToMap model
      let modelMap := result.1
      let err := result.2
      ReadM.returnIf err.isSome (diag.FromErr err)
      pure (subnet ++ [modelMap])
    | none => pure subnet)
  let err ← ResourceData.Set host.setError "subnet" (Value.list subnet)
  ReadM.returnIf err.isSome (diag.FromErr (fmt.Errorf "Error setting subnet " err.Error))

  let target : List AttrMap := []
  let target ← (match virtualNetworkInterface.Target with
    | some model => do
      let result := dataSourceIBMIsVirtualNetworkInterfaceVirtualNetworkInterfaceTargetToMap model
      let modelMap := result.1
      let err := result.2
      ReadM.returnIf err.isSome (diag.FromErr err)
      pure (target ++ [modelMap.getD []])
    | none => pure target)
  let err ← ResourceData.Set host.setError "target" (Value.list target)
  ReadM.returnIf err.isSome (diag.FromErr (fmt.Errorf "Error setting target " err.Error))

  let vpc : List AttrMap := []
  let vpc ← (match virtualNetworkInterface.VPC with
    | some model => do
      let result := dataSourceIBMIsVirtualNetworkInterfaceVPCReferenceToMap model
      let modelMap := result.1
      let err := result.2
      ReadM.returnIf err.isSome (diag.FromErr err)
      pure (vpc ++ [modelMap])
    | none => pure vpc)
  let err ← ResourceData.Set host.setError "vpc" (Value.list vpc)
  ReadM.returnIf err.isSome (diag.FromErr (fmt.Errorf "Error setting vpc " err.Error))

  let zone : List AttrMap := []
  let zone ← (match virtualNetworkInterface.Zone with
    | some model => do
      let result := dataSourceIBMIsVirtualNetworkInterfaceZoneReferenceToMap model
      let modelMap := result.1
      let err := result.2
      ReadM.returnIf err.isSome (diag.FromErr err)
      pure (zone ++ [modelMap])
    | none => pure zone)
  let err ← ResourceData.Set host.setError "zone" (Value.list zone)
  ReadM.returnIf err.isSome (diag.FromErr (fmt.Errorf "Error setting zone " err.Error))

  ReadM.returnDiags []

end vpc

namespace power

/-! ## The snapshot data source -/

/-- The model `models.Snapshot` of the Power client. -/
structure Snapshot where
  Action : String
  CreationDate : strfmt.DateTime
  Description : String
  LastUpdateDate : strfmt.DateTime
  Name : Option String
  PercentComplete : Int
  SnapshotID : Option String
  Status : String
  VolumeSnapshots : List (String × String)

/-- What the snapshot data source takes from outside the file: the attribute
and argument name constants of the package (`Attr_Action` and the others,
declared in another file of it) and the method `String()` of `strfmt.DateTime`. -/
structure Package where
  Arg_CloudInstanceID : String
  Arg_InstanceName : String
  Attr_PVMSnapshots : String
  Attr_Action : String
  Attr_CreationDate : String
  Attr_Description : String
  Attr_ID : String
  Attr_LastUpdatedDate : String
  Attr_Name : String
  Attr_PercentComplete : String
  Attr_Status : String
  Attr_VolumeSnapshots : String
  DateTimeString : strfmt.DateTime → String

/-- The keys of the map literal of `flattenPVMSnapshotInstances`, in the order
they are written.  Go refuses a map literal with two equal constant keys, so
they are distinct in every package that compiles. -/
def Package.literalKeys (pkg : Package) : List String :=
  [pkg.Attr_Action, pkg.Attr_CreationDate, pkg.Attr_Description, pkg.Attr_ID,
    pkg.Attr_LastUpdatedDate, pkg.Attr_Name, pkg.Attr_PercentComplete, pkg.Attr_Status,
    pkg.Attr_VolumeSnapshots]

/-- The map literal `l` of the loop of `flattenPVMSnapshotInstances` for the
element `i`; `none` is the panic of a nil dereference (`i.Action` on a nil
`i`, `*i.SnapshotID`, `*i.Name`). -/
def flattenPVMSnapshotInstances.l (pkg : Package) (i : Option Snapshot) : Option AttrMap := do
  let i ← i
  let snapshotID ← i.SnapshotID
  let name ← i.Name
  pure [
    (pkg.Attr_Action, Value.str i.Action),
    (pkg.Attr_CreationDate, Value.str (pkg.DateTimeString i.CreationDate)),
    (pkg.Attr_Description, Value.str i.Description),
    (pkg.Attr_ID, Value.str snapshotID),
    (pkg.Attr_LastUpdatedDate, Value.str (pkg.DateTimeString i.LastUpdateDate)),
    (pkg.Attr_Name, Value.str name),
    (pkg.Attr_PercentComplete, Value.int i.PercentComplete),
    (pkg.Attr_Status, Value.str i.Status),
    (pkg.Attr_VolumeSnapshots, Value.strMap i.VolumeSnapshots)]

/-- The function `flattenPVMSnapshotInstances`; `none` is a panic. -/
def flattenPVMSnapshotInstances (pkg : Package) (list : Slice (Option Snapshot)) :
    Option (List AttrMap) := do
  let mut result : List AttrMap := []
  for i in Slice.elems list do
    let l ← flattenPVMSnapshotInstances.l pkg i
    result := result ++ [l]
  return result

/-- The model `models.Snapshots`. -/
structure Snapshots where
  Snapshots : Slice (Option Snapshot)

/-- The session `*ibmpisession.IBMPISession`, by what the instance client made
from it for a cloud instance returns from `GetSnapShotVM` for an instance name:
the data and the error. -/
structure IBMPISession where
  GetSnapShotVM : String → String → Option Snapshots × GoError

/-- The value `meta.(conns.ClientSession)`, by what `IBMPISession()` returns. -/
structure ClientSession where
  IBMPISession : Option IBMPISession × GoError

/-- What the read takes from the libraries: the verdict of `d.Set` and the
result of `uuid.GenerateUUID()`. -/
structure Host where
  setError : String → Value → GoError
  GenerateUUID : String × GoError

def dataSourceIBMPISnapshotRead (pkg : Package) (host : Host) (session : ClientSession) :
    ReadM Unit := do
  let sess := session.IBMPISession.1
  let err := session.IBMPISession.2
  ReadM.returnIf err.isSome (diag.FromErr err)

  let cloudInstanceID ← ResourceData.GetString pkg.Arg_CloudInstanceID
  let powerinstancename ← ResourceData.GetString pkg.Arg_InstanceName
  let sess ← ReadM.deref sess
  let result := sess.GetSnapShotVM cloudInstanceID powerinstancename
  let snapshotData := result.1
  let err := result.2

  ReadM.returnIf err.isSome (diag.FromErr err)

  let clientgenU := host.GenerateUUID.1
  ResourceData.SetId clientgenU
  let snapshotData ← ReadM.deref snapshotData
  let flattened ← ReadM.deref (flattenPVMSnapshotInstances pkg snapshotData.Snapshots)
  let _ ← ResourceData.Set host.setError pkg.Attr_PVMSnapshots (Value.list flattened)

  ReadM.returnDiags []

end power

/-! ## Notions the statements use -/

/-- An optional scalar field `source` of a model is emitted under `key` the way
the flatteners are meant to: the record has the key exactly when the field is
non-nil, the value bound is then the string pointed to, and a nil field is not
turned into an empty string or a zero. -/
def EmitsOptionalScalar (record : AttrMap) (key : String) (source : Option String) : Prop :=
  (key ∈ AttrMap.keys record ↔ source ≠ none) ∧
  (∀ s, source = some s → AttrMap.lookup record key = some (Value.str s)) ∧
  (source = none →
    AttrMap.lookup record key ≠ some (Value.str "") ∧
    AttrMap.lookup record key ≠ some (Value.int 0))

/-- A record binds `deleted` the way a present deleted marker asks for, the
marker given by its `more_info` (`none` when there is no marker): one record
with the one binding `more_info = s` for a marker with `more_info = s`, one
empty record for a marker whose `more_info` is nil. -/
def BindsDeletedMarker (record : AttrMap) (marker : Option (Option String)) : Prop :=
  (∀ s, marker = some (some s) →
    AttrMap.lookup record "deleted" = some (Value.list [[("more_info", Value.str s)]])) ∧
  (marker = some none → AttrMap.lookup record "deleted" = some (Value.list [[]]))

/-- The sequence a single nested-object attribute is bound to: empty for a nil
source pointer, else the one record `flatten` makes of the source object. -/
def nestedObject {α : Type} (flatten : α → AttrMap) : Option α → List AttrMap
  | none => []
  | some model => [flatten model]

namespace vpc

/-- The record of the resolver for a target, the `nil` map read as empty. -/
def targetRecord (model : VirtualNetworkInterfaceTargetIntf) : AttrMap :=
  (dataSourceIBMIsVirtualNetworkInterfaceVirtualNetworkInterfaceTargetToMap model).1.getD []

/-- The attribute names the resolver can emit for a share-mount-target
reference. -/
def shareMountTargetAttributeNames : Set String :=
  { k | ∃ m, k ∈ AttrMap.keys
      (targetRecord (VirtualNetworkInterfaceTargetIntf.shareMountTargetReference m)) }

/-- The attribute names the resolver can emit for a generic
`VirtualNetworkInterfaceTarget`. -/
def genericTargetAttributeNames : Set String :=
  { k | ∃ m, k ∈ AttrMap.keys (targetRecord (VirtualNetworkInterfaceTargetIntf.target m)) }

/-- The attributes after a read that set every attribute of the virtual network
interface `vni`, written over the attributes `attrs` the read began with: the
fourteen `d.Set` calls of the read in their order, each nested object bound to
its `nestedObject` sequence and `security_groups` to one record for each
element of the source slice, in its order. -/
def attributesAfterRead (host : Host) (vni : VirtualNetworkInterface) (attrs : AttrMap) :
    AttrMap :=
  List.foldl (fun m kv => AttrMap.store m kv.1 kv.2) attrs [
    ("auto_delete", Value.boolPtr vni.AutoDelete),
    ("created_at", Value.str (host.DateTimeToString vni.CreatedAt)),
    ("crn", Value.strPtr vni.CRN),
    ("href", Value.strPtr vni.Href),
    ("lifecycle_state", Value.strPtr vni.LifecycleState),
    ("name", Value.strPtr vni.Name),
    ("primary_ip", Value.list (nestedObject
      (fun m => (dataSourceIBMIsVirtualNetworkInterfaceReservedIPReferenceToMap m).1)
      vni.PrimaryIP)),
    ("resource_group", Value.list (nestedObject
      (fun m => (dataSourceIBMIsVirtualNetworkInterfaceResourceGroupReferenceToMap m).1)
      vni.ResourceGroup)),
    ("resource_type", Value.strPtr vni.ResourceType),
    ("security_groups", Value.list ((Slice.elems vni.SecurityGroups).map
      (fun m => (dataSourceIBMIsVirtualNetworkInterfaceSecurityGroupReferenceToMap m).1))),
    ("subnet", Value.list (nestedObject
      (fun m => (dataSourceIBMIsVirtualNetworkInterfaceSubnetReferenceToMap m).1) vni.Subnet)),
    ("target", Value.list (nestedObject targetRecord vni.Target)),
    ("vpc", Value.list (nestedObject
      (fun m => (dataSourceIBMIsVirtualNetworkInterfaceVPCReferenceToMap m).1) vni.VPC)),
    ("zone", Value.list (nestedObject
      (fun m => (dataSourceIBMIsVirtualNetworkInterfaceZoneReferenceToMap m).1) vni.Zone))]

end vpc

namespace vpc

/-- A virtual network interface as the API may return it: a subnet without a
deleted marker, a share-mount target, two security groups, no zone. -/
def exampleInterface : VirtualNetworkInterface where
  AutoDelete := some true
  CreatedAt := none
  CRN := some "crn:v1:vni"
  Href := none
  ID := some "0717-vni"
  LifecycleState := some "stable"
  Name := some "my-vni"
  PrimaryIP := some
    { Address := some "10.0.0.5", Deleted := none, Href := none, ID := some "0717-ip",
      Name := some "my-ip", ResourceType := some "subnet_reserved_ip" }
  ResourceGroup := some { Href := none, ID := some "rg-1", Name := some "default" }
  ResourceType := some "virtual_network_interface"
  SecurityGroups := some
    [{ CRN := none, Deleted := none, Href := none, ID := some "sg-1", Name := some "first" },
     { CRN := none, Deleted := some { MoreInfo := some "https://x" }, Href := none,
       ID := some "sg-2", Name := none }]
  Subnet := some
    { CRN := none, Deleted := none, Href := none, ID := some "0717-sn", Name := some "sn",
      ResourceType := some "subnet" }
  Target := some (VirtualNetworkInterfaceTargetIntf.shareMountTargetReference
    { Deleted := none, Href := none, ID := some "mt-1", Name := some "mount",
      ResourceType := some "share_mount_target" })
  VPC := some
    { CRN := none, Deleted := none, Href := none, ID := some "vpc-1", Name := some "net",
      ResourceType := some "vpc" }
  Zone := none

/-- A session whose client answers every request with `exampleInterface`. -/
def exampleSession : ClientSession where
  VpcV1BetaAPI :=
    (some { GetVirtualNetworkInterfaceWithContext := fun _ => (some exampleInterface, "", none) },
      none)

/-- A host whose `d.Set` accepts every value. -/
def exampleHost : Host where
  setError := fun _ _ => none
  DateTimeToString := fun _ => ""

/-- The resource data of a configuration that asks for the interface `0717-vni`. -/
def exampleData : ResourceData where
  id := ""
  attrs := [("virtual_network_interface", Value.str "0717-vni")]

end vpc

namespace power

/-- The package with the attribute names the provider documents for the
snapshot data source. -/
def examplePackage : Package where
  Arg_CloudInstanceID := "pi_cloud_instance_id"
  Arg_InstanceName := "pi_instance_name"
  Attr_PVMSnapshots := "pvm_snapshots"
  Attr_Action := "action"
  Attr_CreationDate := "creation_date"
  Attr_Description := "description"
  Attr_ID := "id"
  Attr_LastUpdatedDate := "last_updated_date"
  Attr_Name := "name"
  Attr_PercentComplete := "percent_complete"
  Attr_Status := "status"
  Attr_VolumeSnapshots := "volume_snapshots"
  DateTimeString := fun t => toString t.nanos

/-- A complete snapshot. -/
def exampleSnapshot : Snapshot where
  Action := "snapshot"
  CreationDate := { nanos := 1 }
  Description := "nightly"
  LastUpdateDate := { nanos := 2 }
  Name := some "snap-a"
  PercentComplete := 100
  SnapshotID := some "s-1"
  Status := "available"
  VolumeSnapshots := [("vol-1", "vs-1"), ("vol-2", "vs-2")]

/-- A second complete snapshot, still in progress. -/
def exampleSnapshotB : Snapshot where
  Action := "restore"
  CreationDate := { nanos := 3 }
  Description := ""
  LastUpdateDate := { nanos := 4 }
  Name := some "snap-b"
  PercentComplete := 40
  SnapshotID := some "s-2"
  Status := "in_progress"
  VolumeSnapshots := []

end power

/-! ## The static schema -/

/-- The value types of the plugin SDK the schema uses. -/
inductive schema.ValueType where
  | TypeBool
  | TypeString
  | TypeList

/-- A `*schema.Schema`: its `Type` (here `valueType`), `Required`, `Computed`
and, for a list of nested objects, the `Schema` map of its `Elem` resource
(descriptions left out). -/
inductive schema.Schema where
  | mk (valueType : schema.ValueType) (Required : Bool) (Computed : Bool)
      (Elem : Option (List (String × schema.Schema)))

/-- The `Schema` map of a `*schema.Resource`. -/
abbrev schema.Resource := List (String × schema.Schema)

/-- The nested attributes of a schema: the `Schema` map of its `Elem`, none for
a scalar. -/
def schema.Schema.elem : schema.Schema → schema.Resource
  | schema.Schema.mk _ _ _ (some r) => r
  | schema.Schema.mk _ _ _ none => []

/-- The attribute names a resource declares. -/
def schema.Resource.names (r : schema.Resource) : List String := r.map Prod.fst

/-- The schema a resource declares under a name. -/
def schema.Resource.find : schema.Resource → String → Option schema.Schema
  | [], _ => none
  | (k0, s0) :: rest, k => if k0 = k then some s0 else schema.Resource.find rest k

/-- The nested schema of the attribute `name` of a resource: empty when the
resource declares no such attribute. -/
def schema.Resource.nested (r : schema.Resource) (name : String) : schema.Resource :=
  match schema.Resource.find r name with
  | some s => s.elem
  | none => []

namespace vpc

/-- The `Schema` map of `DataSourceIBMIsVirtualNetworkInterface()`. -/
def DataSourceIBMIsVirtualNetworkInterface : schema.Resource := [
    ("virtual_network_interface", schema.Schema.mk schema.ValueType.TypeString true false none),
    ("auto_delete", schema.Schema.mk schema.ValueType.TypeBool false true none),
    ("created_at", schema.Schema.mk schema.ValueType.TypeString false true none),
    ("crn", schema.Schema.mk schema.ValueType.TypeString false true none),
    ("href", schema.Schema.mk schema.ValueType.TypeString false true none),
    ("lifecycle_state", schema.Schema.mk schema.ValueType.TypeString false true none),
    ("name", schema.Schema.mk schema.ValueType.TypeString false true none),
    ("primary_ip", schema.Schema.mk schema.ValueType.TypeList false true (some [
      ("address", schema.Schema.mk schema.ValueType.TypeString false true none),
      ("deleted", schema.Schema.mk schema.ValueType.TypeList false true (some [
        ("more_info", schema.Schema.mk schema.ValueType.TypeString false true none)])),
      ("href", schema.Schema.mk schema.ValueType.TypeString false true none),
      ("id", schema.Schema.mk schema.ValueType.TypeString false true none),
      ("name", schema.Schema.mk schema.ValueType.TypeString false true none),
      ("resource_type", schema.Schema.mk schema.ValueType.TypeString false true none)])),
    ("resource_group", schema.Schema.mk schema.ValueType.TypeList false true (some [
      ("href", schema.Schema.mk schema.ValueType.TypeString false true none),
      ("id", schema.Schema.mk schema.ValueType.TypeString false true none),
      ("name", schema.Schema.mk schema.ValueType.TypeString false true none)])),
    ("resource_type", schema.Schema.mk schema.ValueType.TypeString false true none),
    ("security_groups", schema.Schema.mk schema.ValueType.TypeList false true (some [
      ("crn", schema.Schema.mk schema.ValueType.TypeString false true none),
      ("deleted", schema.Schema.mk schema.ValueType.TypeList false true (some [
        ("more_info", schema.Schema.mk schema.ValueType.TypeString false true none)])),
      ("href", schema.Schema.mk schema.ValueType.TypeString false true none),
      ("id", schema.Schema.mk schema.ValueType.TypeString false true none),
      ("name", schema.Schema.mk schema.ValueType.TypeString false true none)])),
    ("subnet", schema.Schema.mk schema.ValueType.TypeList false true (some [
      ("crn", schema.Schema.mk schema.ValueType.TypeString false true none),
      ("deleted", schema.Schema.mk schema.ValueType.TypeList false true (some [
        ("more_info", schema.Schema.mk schema.ValueType.TypeString false true none)])),
      ("href", schema.Schema.mk schema.ValueType.TypeString false true none),
      ("id", schema.Schema.mk schema.ValueType.TypeString false true none),
      ("name", schema.Schema.mk schema.ValueType.TypeString false true none),
      ("resource_type", schema.Schema.mk schema.ValueType.TypeString false true none)])),
    ("target", schema.Schema.mk schema.ValueType.TypeList false true (some [
      ("deleted", schema.Schema.mk schema.ValueType.TypeList false true (some [
        ("more_info", schema.Schema.mk schema.ValueType.TypeString false true none)])),
      ("href", schema.Schema.mk schema.ValueType.TypeString false true none),
      ("id", schema.Schema.mk schema.ValueType.TypeString false true none),
      ("name", schema.Schema.mk schema.ValueType.TypeString false true none),
      ("resource_type", schema.Schema.mk schema.ValueType.TypeString false true none)])),
    ("vpc", schema.Schema.mk schema.ValueType.TypeList false true (some [
      ("crn", schema.Schema.mk schema.ValueType.TypeString false true none),
      ("deleted", schema.Schema.mk schema.ValueType.TypeList false true (some [
        ("more_info", schema.Schema.mk schema.ValueType.TypeString false true none)])),
      ("href", schema.Schema.mk schema.ValueType.TypeString false true none),
      ("id", schema.Schema.mk schema.ValueType.TypeString false true none),
      ("name", schema.Schema.mk schema.ValueType.TypeString false true none),
      ("resource_type", schema.Schema.mk schema.ValueType.TypeString false true none)])),
    ("zone", schema.Schema.mk schema.ValueType.TypeList false true (some [
      ("href", schema.Schema.mk schema.ValueType.TypeString false true none),
      ("name", schema.Schema.mk schema.ValueType.TypeString false true none)]))]

end vpc

namespace vpc

/-- A flattener emits the attribute names of a nested schema and no others:
every key of every record it makes is declared, and every declared name is a
key of the record it makes of some model. -/
def EmitsExactly {α : Type} (flatten : α → AttrMap) (declared : schema.Resource) : Prop :=
  (∀ model, ∀ k ∈ AttrMap.keys (flatten model), k ∈ declared.names) ∧
  (∀ k ∈ declared.names, ∃ model, k ∈ AttrMap.keys (flatten model))

/-- The attributes the read sets before it resolves the target. -/
def keysBeforeTarget : List String :=
  ["auto_delete", "created_at", "crn", "href", "lifecycle_state", "name", "primary_ip",
    "resource_group", "resource_type", "security_groups", "subnet"]

/-- The values the read hands to `d.Set` before it resolves the target of the
interface `vni`, each with its key: the eleven calls in their order. -/
def writesBeforeTarget (host : Host) (vni : VirtualNetworkInterface) : List (String × Value) := [
    ("auto_delete", Value.boolPtr vni.AutoDelete),
    ("created_at", Value.str (host.DateTimeToString vni.CreatedAt)),
    ("crn", Value.strPtr vni.CRN),
    ("href", Value.strPtr vni.Href),
    ("lifecycle_state", Value.strPtr vni.LifecycleState),
    ("name", Value.strPtr vni.Name),
    ("primary_ip", Value.list (nestedObject
      (fun m => (dataSourceIBMIsVirtualNetworkInterfaceReservedIPReferenceToMap m).1)
      vni.PrimaryIP)),
    ("resource_group", Value.list (nestedObject
      (fun m => (dataSourceIBMIsVirtualNetworkInterfaceResourceGroupReferenceToMap m).1)
      vni.ResourceGroup)),
    ("resource_type", Value.strPtr vni.ResourceType),
    ("security_groups", Value.list ((Slice.elems vni.SecurityGroups).map
      (fun m => (dataSourceIBMIsVirtualNetworkInterfaceSecurityGroupReferenceToMap m).1))),
    ("subnet", Value.list (nestedObject
      (fun m => (dataSourceIBMIsVirtualNetworkInterfaceSubnetReferenceToMap m).1) vni.Subnet))]

/-- The attributes when the read of the interface `vni` comes to resolve the
target, `d.Set` having accepted each value of `writesBeforeTarget`: the eleven
writes in their order, over the attributes `attrs` the read began with. -/
def attributesBeforeTarget (host : Host) (vni : VirtualNetworkInterface) (attrs : AttrMap) :
    AttrMap :=
  List.foldl (fun m kv => AttrMap.store m kv.1 kv.2) attrs (writesBeforeTarget host vni)

/-- A client whose call fails with the error `not found`, the response printing
as `404`. -/
def exampleFailingClient : VpcbetaV1 where
  GetVirtualNetworkInterfaceWithContext := fun _ => (none, "404", some "not found")

/-- A session with the failing client. -/
def exampleFailingSession : ClientSession where
  VpcV1BetaAPI := (some exampleFailingClient, none)

/-- The example interface with a target of a type the resolver does not know. -/
def exampleUnknownTargetInterface : VirtualNetworkInterface :=
  { exampleInterface with
    Target := some (VirtualNetworkInterfaceTargetIntf.other "InstanceNetworkAttachment") }

/-- A client that answers with `exampleUnknownTargetInterface`. -/
def exampleUnknownTargetClient : VpcbetaV1 where
  GetVirtualNetworkInterfaceWithContext := fun _ => (some exampleUnknownTargetInterface, "", none)

/-- A session with that client. -/
def exampleUnknownTargetSession : ClientSession where
  VpcV1BetaAPI := (some exampleUnknownTargetClient, none)

/-- A host whose `d.Set` checks a type: it refuses a list under `auto_delete`
and accepts every other value. -/
def exampleCheckingHost : Host where
  setError := fun k v =>
    match k, v with
    | "auto_delete", Value.list _ => some "auto_delete: not a bool"
    | _, _ => none
  DateTimeToString := fun _ => ""

end vpc

namespace power

/-- A session whose `GetSnapShotVM` fails with `boom`, next to data the
flattener would panic on. -/
def exampleFailingPISession : IBMPISession where
  GetSnapShotVM := fun _ _ => (some { Snapshots := some [none] }, some "boom")

/-- A client session with `exampleFailingPISession`. -/
def exampleFailingSession : ClientSession where
  IBMPISession := (some exampleFailingPISession, none)

/-- A host whose `d.Set` accepts every value and whose generator gives a fixed
identifier. -/
def exampleHost : Host where
  setError := fun _ _ => none
  GenerateUUID := ("6ba7b810-9dad-11d1-80b4-00c04fd430c8", none)

/-- The resource data of a configuration naming a cloud instance and an
instance. -/
def exampleData : ResourceData where
  id := ""
  attrs := [("pi_cloud_instance_id", Value.str "cloud-1"),
    ("pi_instance_name", Value.str "vm-1")]

end power

/-! ## Records -/

theorem AttrMap.lookup_store (m : AttrMap) (k : String) (v : Value) (k1 : String) :
    AttrMap.lookup (AttrMap.store m k v) k1 = if k = k1 then some v else AttrMap.lookup m k1 := by
  induction m with
  | nil => simp [AttrMap.store, AttrMap.lookup]
  | cons p rest ih =>
    obtain ⟨k0, v0⟩ := p
    by_cases h0 : k0 = k
    · subst h0
      by_cases h1 : k0 = k1 <;> simp [AttrMap.store, AttrMap.lookup, h1]
    · by_cases h1 : k0 = k1
      · subst h1
        have h2 : ¬ k = k0 := fun e => h0 e.symm
        simp [AttrMap.store, AttrMap.lookup, h0, h2]
      · simp [AttrMap.store, AttrMap.lookup, h0, h1, ih]

theorem AttrMap.mem_keys_iff (m : AttrMap) (k : String) :
    k ∈ AttrMap.keys m ↔ AttrMap.lookup m k ≠ none := by
  induction m with
  | nil => simp [AttrMap.keys, AttrMap.lookup]
  | cons p rest ih =>
    obtain ⟨k0, v0⟩ := p
    by_cases h0 : k0 = k
    · simp [AttrMap.keys, AttrMap.lookup, h0]
    · have h1 : ¬ k = k0 := fun e => h0 e.symm
      have ih1 : k ∈ List.map Prod.fst rest ↔ AttrMap.lookup rest k ≠ none := ih
      simp only [AttrMap.keys, AttrMap.lookup, List.map_cons, List.mem_cons, h0, h1, if_false,
        false_or]
      exact ih1

theorem emitsOptionalScalar_of_lookup {record : AttrMap} {key : String}
    {source : Option String}
    (h : AttrMap.lookup record key = source.map Value.str) :
    EmitsOptionalScalar record key source := by
  refine ⟨?_, ?_, ?_⟩
  · rw [AttrMap.mem_keys_iff, h]
    cases source <;> simp
  · intro s hs
    rw [h, hs]
    rfl
  · intro hs
    rw [h, hs]
    exact ⟨fun e => Option.noConfusion e, fun e => Option.noConfusion e⟩


namespace vpc

/-! ## What each flattener returns -/

theorem reservedIPReferenceDeletedToMap_eq (model : ReservedIPReferenceDeleted) :
    dataSourceIBMIsVirtualNetworkInterfaceReservedIPReferenceDeletedToMap model =
      (match model.MoreInfo with
        | some s => [("more_info", Value.str s)]
        | none => [], none) := by
  rcases model with ⟨_ | s⟩ <;> rfl

theorem securityGroupReferenceDeletedToMap_eq (model : SecurityGroupReferenceDeleted) :
    dataSourceIBMIsVirtualNetworkInterfaceSecurityGroupReferenceDeletedToMap model =
      (match model.MoreInfo with
        | some s => [("more_info", Value.str s)]
        | none => [], none) := by
  rcases model with ⟨_ | s⟩ <;> rfl

theorem subnetReferenceDeletedToMap_eq (model : SubnetReferenceDeleted) :
    dataSourceIBMIsVirtualNetworkInterfaceSubnetReferenceDeletedToMap model =
      (match model.MoreInfo with
        | some s => [("more_info", Value.str s)]
        | none => [], none) := by
  rcases model with ⟨_ | s⟩ <;> rfl

theorem shareMountTargetReferenceDeletedToMap_eq (model : ShareMountTargetReferenceDeleted) :
    dataSourceIBMIsVirtualNetworkInterfaceShareMountTargetReferenceDeletedToMap model =
      (match model.MoreInfo with
        | some s => [("more_info", Value.str s)]
        | none => [], none) := by
  rcases model with ⟨_ | s⟩ <;> rfl

theorem vpcReferenceDeletedToMap_eq (model : VPCReferenceDeleted) :
    dataSourceIBMIsVirtualNetworkInterfaceVPCReferenceDeletedToMap model =
      (match model.MoreInfo with
        | some s => [("more_info", Value.str s)]
        | none => [], none) := by
  rcases model with ⟨_ | s⟩ <;> rfl

theorem reservedIPReference_lookup (model : ReservedIPReference) :
    AttrMap.lookup ((dataSourceIBMIsVirtualNetworkInterfaceReservedIPReferenceToMap model).1) "address" = model.Address.map Value.str ∧
    AttrMap.lookup ((dataSourceIBMIsVirtualNetworkInterfaceReservedIPReferenceToMap model).1) "deleted" =
      model.Deleted.map (fun d => Value.list [(dataSourceIBMIsVirtualNetworkInterfaceReservedIPReferenceDeletedToMap d).1]) ∧
    AttrMap.lookup ((dataSourceIBMIsVirtualNetworkInterfaceReservedIPReferenceToMap model).1) "href" = model.Href.map Value.str ∧
    AttrMap.lookup ((dataSourceIBMIsVirtualNetworkInterfaceReservedIPReferenceToMap model).1) "id" = model.ID.map Value.str ∧
    AttrMap.lookup ((dataSourceIBMIsVirtualNetworkInterfaceReservedIPReferenceToMap model).1) "name" = model.Name.map Value.str ∧
    AttrMap.lookup ((dataSourceIBMIsVirtualNetworkInterfaceReservedIPReferenceToMap model).1) "resource_type" = model.ResourceType.map Value.str := by
  rcases model with ⟨_ | a0, _ | ⟨_ | mi⟩, _ | h2, _ | i3, _ | n4, _ | r5⟩ <;> and_intros <;> rfl

theorem reservedIPReferenceToMap_error (model : ReservedIPReference) :
    (dataSourceIBMIsVirtualNetworkInterfaceReservedIPReferenceToMap model).2 = none := by
  rcases model with ⟨_ | a0, _ | ⟨_ | mi⟩, _ | h2, _ | i3, _ | n4, _ | r5⟩ <;> rfl

theorem resourceGroupReference_lookup (model : ResourceGroupReference) :
    AttrMap.lookup ((dataSourceIBMIsVirtualNetworkInterfaceResourceGroupReferenceToMap model).1) "href" = model.Href.map Value.str ∧
    AttrMap.lookup ((dataSourceIBMIsVirtualNetworkInterfaceResourceGroupReferenceToMap model).1) "id" = model.ID.map Value.str ∧
    AttrMap.lookup ((dataSourceIBMIsVirtualNetworkInterfaceResourceGroupReferenceToMap model).1) "name" = model.Name.map Value.str := by
  rcases model with ⟨_ | h0, _ | i1, _ | n2⟩ <;> and_intros <;> rfl

theorem resourceGroupReferenceToMap_error (model : ResourceGroupReference) :
    (dataSourceIBMIsVirtualNetworkInterfaceResourceGroupReferenceToMap model).2 = none := by
  rcases model with ⟨_ | h0, _ | i1, _ | n2⟩ <;> rfl

theorem securityGroupReference_lookup (model : SecurityGroupReference) :
    AttrMap.lookup ((dataSourceIBMIsVirtualNetworkInterfaceSecurityGroupReferenceToMap model).1) "crn" = model.CRN.map Value.str ∧
    AttrMap.lookup ((dataSourceIBMIsVirtualNetworkInterfaceSecurityGroupReferenceToMap model).1) "deleted" =
      model.Deleted.map (fun d => Value.list [(dataSourceIBMIsVirtualNetworkInterfaceSecurityGroupReferenceDeletedToMap d).1]) ∧
    AttrMap.lookup ((dataSourceIBMIsVirtualNetworkInterfaceSecurityGroupReferenceToMap model).1) "href" = model.Href.map Value.str ∧
    AttrMap.lookup ((dataSourceIBMIsVirtualNetworkInterfaceSecurityGroupReferenceToMap model).1) "id" = model.ID.map Value.str ∧
    AttrMap.lookup ((dataSourceIBMIsVirtualNetworkInterfaceSecurityGroupReferenceToMap model).1) "name" = model.Name.map Value.str := by
  rcases model with ⟨_ | c0, _ | ⟨_ | mi⟩, _ | h2, _ | i3, _ | n4⟩ <;> and_intros <;> rfl

theorem securityGroupReferenceToMap_error (model : SecurityGroupReference) :
    (dataSourceIBMIsVirtualNetworkInterfaceSecurityGroupReferenceToMap model).2 = none := by
  rcases model with ⟨_ | c0, _ | ⟨_ | mi⟩, _ | h2, _ | i3, _ | n4⟩ <;> rfl

theorem subnetReference_lookup (model : SubnetReference) :
    AttrMap.lookup ((dataSourceIBMIsVirtualNetworkInterfaceSubnetReferenceToMap model).1) "crn" = model.CRN.map Value.str ∧
    AttrMap.lookup ((dataSourceIBMIsVirtualNetworkInterfaceSubnetReferenceToMap model).1) "deleted" =
      model.Deleted.map (fun d => Value.list [(dataSourceIBMIsVirtualNetworkInterfaceSubnetReferenceDeletedToMap d).1]) ∧
    AttrMap.lookup ((dataSourceIBMIsVirtualNetworkInterfaceSubnetReferenceToMap model).1) "href" = model.Href.map Value.str ∧
    AttrMap.lookup ((dataSourceIBMIsVirtualNetworkInterfaceSubnetReferenceToMap model).1) "id" = model.ID.map Value.str ∧
    AttrMap.lookup ((dataSourceIBMIsVirtualNetworkInterfaceSubnetReferenceToMap model).1) "name" = model.Name.map Value.str ∧
    AttrMap.lookup ((dataSourceIBMIsVirtualNetworkInterfaceSubnetReferenceToMap model).1) "resource_type" = model.ResourceType.map Value.str := by
  rcases model with ⟨_ | c0, _ | ⟨_ | mi⟩, _ | h2, _ | i3, _ | n4, _ | r5⟩ <;> and_intros <;> rfl

theorem subnetReferenceToMap_error (model : SubnetReference) :
    (dataSourceIBMIsVirtualNetworkInterfaceSubnetReferenceToMap model).2 = none := by
  rcases model with ⟨_ | c0, _ | ⟨_ | mi⟩, _ | h2, _ | i3, _ | n4, _ | r5⟩ <;> rfl

theorem shareMountTargetReference_lookup (model : VirtualNetworkInterfaceTargetShareMountTargetReference) :
    AttrMap.lookup ((dataSourceIBMIsVirtualNetworkInterfaceVirtualNetworkInterfaceTargetShareMountTargetReferenceToMap model).1) "deleted" =
      model.Deleted.map (fun d => Value.list [(dataSourceIBMIsVirtualNetworkInterfaceShareMountTargetReferenceDeletedToMap d).1]) ∧
    AttrMap.lookup ((dataSourceIBMIsVirtualNetworkInterfaceVirtualNetworkInterfaceTargetShareMountTargetReferenceToMap model).1) "href" = model.Href.map Value.str ∧
    AttrMap.lookup ((dataSourceIBMIsVirtualNetworkInterfaceVirtualNetworkInterfaceTargetShareMountTargetReferenceToMap model).1) "id" = model.ID.map Value.str ∧
    AttrMap.lookup ((dataSourceIBMIsVirtualNetworkInterfaceVirtualNetworkInterfaceTargetShareMountTargetReferenceToMap model).1) "name" = model.Name.map Value.str ∧
    AttrMap.lookup ((dataSourceIBMIsVirtualNetworkInterfaceVirtualNetworkInterfaceTargetShareMountTargetReferenceToMap model).1) "resource_type" = model.ResourceType.map Value.str := by
  rcases model with ⟨_ | ⟨_ | mi⟩, _ | h1, _ | i2, _ | n3, _ | r4⟩ <;> and_intros <;> rfl

theorem shareMountTargetReferenceToMap_error (model : VirtualNetworkInterfaceTargetShareMountTargetReference) :
    (dataSourceIBMIsVirtualNetworkInterfaceVirtualNetworkInterfaceTargetShareMountTargetReferenceToMap model).2 = none := by
  rcases model with ⟨_ | ⟨_ | mi⟩, _ | h1, _ | i2, _ | n3, _ | r4⟩ <;> rfl

theorem vpcReference_lookup (model : VPCReference) :
    AttrMap.lookup ((dataSourceIBMIsVirtualNetworkInterfaceVPCReferenceToMap model).1) "crn" = model.CRN.map Value.str ∧
    AttrMap.lookup ((dataSourceIBMIsVirtualNetworkInterfaceVPCReferenceToMap model).1) "deleted" =
      model.Deleted.map (fun d => Value.list [(dataSourceIBMIsVirtualNetworkInterfaceVPCReferenceDeletedToMap d).1]) ∧
    AttrMap.lookup ((dataSourceIBMIsVirtualNetworkInterfaceVPCReferenceToMap model).1) "href" = model.Href.map Value.str ∧
    AttrMap.lookup ((dataSourceIBMIsVirtualNetworkInterfaceVPCReferenceToMap model).1) "id" = model.ID.map Value.str ∧
    AttrMap.lookup ((dataSourceIBMIsVirtualNetworkInterfaceVPCReferenceToMap model).1) "name" = model.Name.map Value.str ∧
    AttrMap.lookup ((dataSourceIBMIsVirtualNetworkInterfaceVPCReferenceToMap model).1) "resource_type" = model.ResourceType.map Value.str := by
  rcases model with ⟨_ | c0, _ | ⟨_ | mi⟩, _ | h2, _ | i3, _ | n4, _ | r5⟩ <;> and_intros <;> rfl

theorem vpcReferenceToMap_error (model : VPCReference) :
    (dataSourceIBMIsVirtualNetworkInterfaceVPCReferenceToMap model).2 = none := by
  rcases model with ⟨_ | c0, _ | ⟨_ | mi⟩, _ | h2, _ | i3, _ | n4, _ | r5⟩ <;> rfl

theorem zoneReference_lookup (model : ZoneReference) :
    AttrMap.lookup ((dataSourceIBMIsVirtualNetworkInterfaceZoneReferenceToMap model).1) "href" = model.Href.map Value.str ∧
    AttrMap.lookup ((dataSourceIBMIsVirtualNetworkInterfaceZoneReferenceToMap model).1) "name" = model.Name.map Value.str := by
  rcases model with ⟨_ | h0, _ | n1⟩ <;> and_intros <;> rfl

theorem zoneReferenceToMap_error (model : ZoneReference) :
    (dataSourceIBMIsVirtualNetworkInterfaceZoneReferenceToMap model).2 = none := by
  rcases model with ⟨_ | h0, _ | n1⟩ <;> rfl

theorem genericTarget_lookup (model : VirtualNetworkInterfaceTarget) :
    AttrMap.lookup (targetRecord (VirtualNetworkInterfaceTargetIntf.target model)) "deleted" =
      model.Deleted.map (fun d => Value.list [(dataSourceIBMIsVirtualNetworkInterfaceShareMountTargetReferenceDeletedToMap d).1]) ∧
    AttrMap.lookup (targetRecord (VirtualNetworkInterfaceTargetIntf.target model)) "href" = model.Href.map Value.str ∧
    AttrMap.lookup (targetRecord (VirtualNetworkInterfaceTargetIntf.target model)) "id" = model.ID.map Value.str ∧
    AttrMap.lookup (targetRecord (VirtualNetworkInterfaceTargetIntf.target model)) "name" = model.Name.map Value.str ∧
    AttrMap.lookup (targetRecord (VirtualNetworkInterfaceTargetIntf.target model)) "resource_type" = model.ResourceType.map Value.str := by
  rcases model with ⟨_ | ⟨_ | mi⟩, _ | h1, _ | i2, _ | n3, _ | r4⟩ <;> and_intros <;> rfl

theorem targetToMap_shareMountTargetReference
    (model : VirtualNetworkInterfaceTargetShareMountTargetReference) :
    dataSourceIBMIsVirtualNetworkInterfaceVirtualNetworkInterfaceTargetToMap
        (VirtualNetworkInterfaceTargetIntf.shareMountTargetReference model) =
      (some (dataSourceIBMIsVirtualNetworkInterfaceVirtualNetworkInterfaceTargetShareMountTargetReferenceToMap model).1,
        (dataSourceIBMIsVirtualNetworkInterfaceVirtualNetworkInterfaceTargetShareMountTargetReferenceToMap model).2) := rfl

theorem targetToMap_target_error (model : VirtualNetworkInterfaceTarget) :
    (dataSourceIBMIsVirtualNetworkInterfaceVirtualNetworkInterfaceTargetToMap (VirtualNetworkInterfaceTargetIntf.target model)).2 =
      none := by
  rcases model with ⟨_ | ⟨_ | mi⟩, _ | h1, _ | i2, _ | n3, _ | r4⟩ <;> rfl

theorem targetToMap_other (typeName : String) :
    dataSourceIBMIsVirtualNetworkInterfaceVirtualNetworkInterfaceTargetToMap (VirtualNetworkInterfaceTargetIntf.other typeName) =
      (none, some "Unrecognized vpcbetav1.VirtualNetworkInterfaceTargetIntf subtype encountered") :=
  rfl

/-! ## The claims on the flatteners and the resolver -/

/-- Claim C1: every flattener of the virtual network interface data source
(reserved IP, resource group, security group, subnet, share-mount target, VPC,
zone, the generic target branch of the resolver and the five deleted-marker
flatteners) emits each optional scalar field under its key if and only if the
field is non-nil, bound to the string pointed to, and never turns a nil field
into an empty string or a zero. -/
theorem c1_optional_scalars_emitted_iff_present :
    (∀ model : ReservedIPReference,
      EmitsOptionalScalar (dataSourceIBMIsVirtualNetworkInterfaceReservedIPReferenceToMap model).1 "address" model.Address ∧
      EmitsOptionalScalar (dataSourceIBMIsVirtualNetworkInterfaceReservedIPReferenceToMap model).1 "href" model.Href ∧
      EmitsOptionalScalar (dataSourceIBMIsVirtualNetworkInterfaceReservedIPReferenceToMap model).1 "id" model.ID ∧
      EmitsOptionalScalar (dataSourceIBMIsVirtualNetworkInterfaceReservedIPReferenceToMap model).1 "name" model.Name ∧
      EmitsOptionalScalar (dataSourceIBMIsVirtualNetworkInterfaceReservedIPReferenceToMap model).1 "resource_type" model.ResourceType) ∧
    (∀ model : ResourceGroupReference,
      EmitsOptionalScalar (dataSourceIBMIsVirtualNetworkInterfaceResourceGroupReferenceToMap model).1 "href" model.Href ∧
      EmitsOptionalScalar (dataSourceIBMIsVirtualNetworkInterfaceResourceGroupReferenceToMap model).1 "id" model.ID ∧
      EmitsOptionalScalar (dataSourceIBMIsVirtualNetworkInterfaceResourceGroupReferenceToMap model).1 "name" model.Name) ∧
    (∀ model : SecurityGroupReference,
      EmitsOptionalScalar (dataSourceIBMIsVirtualNetworkInterfaceSecurityGroupReferenceToMap model).1 "crn" model.CRN ∧
      EmitsOptionalScalar (dataSourceIBMIsVirtualNetworkInterfaceSecurityGroupReferenceToMap model).1 "href" model.Href ∧
      EmitsOptionalScalar (dataSourceIBMIsVirtualNetworkInterfaceSecurityGroupReferenceToMap model).1 "id" model.ID ∧
      EmitsOptionalScalar (dataSourceIBMIsVirtualNetworkInterfaceSecurityGroupReferenceToMap model).1 "name" model.Name) ∧
    (∀ model : SubnetReference,
      EmitsOptionalScalar (dataSourceIBMIsVirtualNetworkInterfaceSubnetReferenceToMap model).1 "crn" model.CRN ∧
      EmitsOptionalScalar (dataSourceIBMIsVirtualNetworkInterfaceSubnetReferenceToMap model).1 "href" model.Href ∧
      EmitsOptionalScalar (dataSourceIBMIsVirtualNetworkInterfaceSubnetReferenceToMap model).1 "id" model.ID ∧
      EmitsOptionalScalar (dataSourceIBMIsVirtualNetworkInterfaceSubnetReferenceToMap model).1 "name" model.Name ∧
      EmitsOptionalScalar (dataSourceIBMIsVirtualNetworkInterfaceSubnetReferenceToMap model).1 "resource_type" model.ResourceType) ∧
    (∀ model : VirtualNetworkInterfaceTargetShareMountTargetReference,
      EmitsOptionalScalar (dataSourceIBMIsVirtualNetworkInterfaceVirtualNetworkInterfaceTargetShareMountTargetReferenceToMap model).1 "href" model.Href ∧
      EmitsOptionalScalar (dataSourceIBMIsVirtualNetworkInterfaceVirtualNetworkInterfaceTargetShareMountTargetReferenceToMap model).1 "id" model.ID ∧
      EmitsOptionalScalar (dataSourceIBMIsVirtualNetworkInterfaceVirtualNetworkInterfaceTargetShareMountTargetReferenceToMap model).1 "name" model.Name ∧
      EmitsOptionalScalar (dataSourceIBMIsVirtualNetworkInterfaceVirtualNetworkInterfaceTargetShareMountTargetReferenceToMap model).1 "resource_type" model.ResourceType) ∧
    (∀ model : VPCReference,
      EmitsOptionalScalar (dataSourceIBMIsVirtualNetworkInterfaceVPCReferenceToMap model).1 "crn" model.CRN ∧
      EmitsOptionalScalar (dataSourceIBMIsVirtualNetworkInterfaceVPCReferenceToMap model).1 "href" model.Href ∧
      EmitsOptionalScalar (dataSourceIBMIsVirtualNetworkInterfaceVPCReferenceToMap model).1 "id" model.ID ∧
      EmitsOptionalScalar (dataSourceIBMIsVirtualNetworkInterfaceVPCReferenceToMap model).1 "name" model.Name ∧
      EmitsOptionalScalar (dataSourceIBMIsVirtualNetworkInterfaceVPCReferenceToMap model).1 "resource_type" model.ResourceType) ∧
    (∀ model : ZoneReference,
      EmitsOptionalScalar (dataSourceIBMIsVirtualNetworkInterfaceZoneReferenceToMap model).1 "href" model.Href ∧
      EmitsOptionalScalar (dataSourceIBMIsVirtualNetworkInterfaceZoneReferenceToMap model).1 "name" model.Name) ∧
    (∀ model : VirtualNetworkInterfaceTarget,
      EmitsOptionalScalar (targetRecord (VirtualNetworkInterfaceTargetIntf.target model))
        "href" model.Href ∧
      EmitsOptionalScalar (targetRecord (VirtualNetworkInterfaceTargetIntf.target model))
        "id" model.ID ∧
      EmitsOptionalScalar (targetRecord (VirtualNetworkInterfaceTargetIntf.target model))
        "name" model.Name ∧
      EmitsOptionalScalar (targetRecord (VirtualNetworkInterfaceTargetIntf.target model))
        "resource_type" model.ResourceType) ∧
    (∀ model : ReservedIPReferenceDeleted,
      EmitsOptionalScalar (dataSourceIBMIsVirtualNetworkInterfaceReservedIPReferenceDeletedToMap model).1 "more_info" model.MoreInfo) ∧
    (∀ model : SecurityGroupReferenceDeleted,
      EmitsOptionalScalar (dataSourceIBMIsVirtualNetworkInterfaceSecurityGroupReferenceDeletedToMap model).1 "more_info" model.MoreInfo) ∧
    (∀ model : SubnetReferenceDeleted,
      EmitsOptionalScalar (dataSourceIBMIsVirtualNetworkInterfaceSubnetReferenceDeletedToMap model).1 "more_info" model.MoreInfo) ∧
    (∀ model : ShareMountTargetReferenceDeleted,
      EmitsOptionalScalar (dataSourceIBMIsVirtualNetworkInterfaceShareMountTargetReferenceDeletedToMap model).1 "more_info" model.MoreInfo) ∧
    (∀ model : VPCReferenceDeleted,
      EmitsOptionalScalar (dataSourceIBMIsVirtualNetworkInterfaceVPCReferenceDeletedToMap model).1 "more_info" model.MoreInfo) := by
  refine ⟨?_, ?_, ?_, ?_, ?_, ?_, ?_, ?_, ?_, ?_, ?_, ?_, ?_⟩
  · intro model
    obtain ⟨h0, h1, h2, h3, h4, h5⟩ := reservedIPReference_lookup model
    exact ⟨emitsOptionalScalar_of_lookup h0, emitsOptionalScalar_of_lookup h2, emitsOptionalScalar_of_lookup h3, emitsOptionalScalar_of_lookup h4, emitsOptionalScalar_of_lookup h5⟩
  · intro model
    obtain ⟨h0, h1, h2⟩ := resourceGroupReference_lookup model
    exact ⟨emitsOptionalScalar_of_lookup h0, emitsOptionalScalar_of_lookup h1, emitsOptionalScalar_of_lookup h2⟩
  · intro model
    obtain ⟨h0, h1, h2, h3, h4⟩ := securityGroupReference_lookup model
    exact ⟨emitsOptionalScalar_of_lookup h0, emitsOptionalScalar_of_lookup h2, emitsOptionalScalar_of_lookup h3, emitsOptionalScalar_of_lookup h4⟩
  · intro model
    obtain ⟨h0, h1, h2, h3, h4, h5⟩ := subnetReference_lookup model
    exact ⟨emitsOptionalScalar_of_lookup h0, emitsOptionalScalar_of_lookup h2, emitsOptionalScalar_of_lookup h3, emitsOptionalScalar_of_lookup h4, emitsOptionalScalar_of_lookup h5⟩
  · intro model
    obtain ⟨h0, h1, h2, h3, h4⟩ := shareMountTargetReference_lookup model
    exact ⟨emitsOptionalScalar_of_lookup h1, emitsOptionalScalar_of_lookup h2, emitsOptionalScalar_of_lookup h3, emitsOptionalScalar_of_lookup h4⟩
  · intro model
    obtain ⟨h0, h1, h2, h3, h4, h5⟩ := vpcReference_lookup model
    exact ⟨emitsOptionalScalar_of_lookup h0, emitsOptionalScalar_of_lookup h2, emitsOptionalScalar_of_lookup h3, emitsOptionalScalar_of_lookup h4, emitsOptionalScalar_of_lookup h5⟩
  · intro model
    obtain ⟨h0, h1⟩ := zoneReference_lookup model
    exact ⟨emitsOptionalScalar_of_lookup h0, emitsOptionalScalar_of_lookup h1⟩
  · intro model
    obtain ⟨h0, h1, h2, h3, h4⟩ := genericTarget_lookup model
    exact ⟨emitsOptionalScalar_of_lookup h1, emitsOptionalScalar_of_lookup h2,
      emitsOptionalScalar_of_lookup h3, emitsOptionalScalar_of_lookup h4⟩
  · intro model
    apply emitsOptionalScalar_of_lookup
    rcases model with ⟨_ | s⟩ <;> rfl
  · intro model
    apply emitsOptionalScalar_of_lookup
    rcases model with ⟨_ | s⟩ <;> rfl
  · intro model
    apply emitsOptionalScalar_of_lookup
    rcases model with ⟨_ | s⟩ <;> rfl
  · intro model
    apply emitsOptionalScalar_of_lookup
    rcases model with ⟨_ | s⟩ <;> rfl
  · intro model
    apply emitsOptionalScalar_of_lookup
    rcases model with ⟨_ | s⟩ <;> rfl

/-- Claim C2, as stated, fails: a subnet reference with a nil deleted marker
(and an identifier and a name) is flattened to a record with no key `deleted`
at all, so the key is not bound to the empty sequence. -/
theorem c2_subnet_deleted_not_empty_sequence :
    ({ CRN := none, Deleted := none, Href := none, ID := some "0717-a1", Name := some "sn",
        ResourceType := some "subnet" } : SubnetReference).Deleted = none ∧
    AttrMap.lookup
      (dataSourceIBMIsVirtualNetworkInterfaceSubnetReferenceToMap
        { CRN := none, Deleted := none, Href := none, ID := some "0717-a1", Name := some "sn",
          ResourceType := some "subnet" }).1 "deleted" ≠ some (Value.list []) :=
  ⟨rfl, fun e => Option.noConfusion e⟩

/-- Claim C2, amended: for every subnet reference whose deleted marker is nil,
the record of `dataSourceIBMIsVirtualNetworkInterfaceSubnetReferenceToMap` has
no key `deleted`: the key is left out, not bound to an empty sequence. -/
theorem c2_subnet_deleted_omitted (model : SubnetReference) (h : model.Deleted = none) :
    "deleted" ∉ AttrMap.keys (dataSourceIBMIsVirtualNetworkInterfaceSubnetReferenceToMap model).1 ∧
    AttrMap.lookup (dataSourceIBMIsVirtualNetworkInterfaceSubnetReferenceToMap model).1 "deleted" =
      none := by
  have hl := (subnetReference_lookup model).2.1
  rw [h] at hl
  exact ⟨fun hk => (AttrMap.mem_keys_iff _ _).1 hk hl, hl⟩

theorem c2_subnet_deleted_omitted_witness :
    "deleted" ∉ AttrMap.keys (dataSourceIBMIsVirtualNetworkInterfaceSubnetReferenceToMap
      { CRN := some "crn:v1:sn", Deleted := none, Href := some "https://x/subnets/1",
        ID := some "0717-a1", Name := some "sn", ResourceType := some "subnet" }).1 ∧
    AttrMap.lookup (dataSourceIBMIsVirtualNetworkInterfaceSubnetReferenceToMap
      { CRN := some "crn:v1:sn", Deleted := none, Href := some "https://x/subnets/1",
        ID := some "0717-a1", Name := some "sn", ResourceType := some "subnet" }).1 "deleted" =
      none :=
  c2_subnet_deleted_omitted _ rfl

/-- Claim C3: in every reference model with a deleted marker (reserved IP,
security group, subnet, VPC, share-mount target, generic target), a marker that
is present with `more_info = s` makes the flattener bind `deleted` to the
sequence of exactly one record, the record with the one binding
`more_info = s`; a marker that is present with a nil `more_info` makes it bind
`deleted` to the sequence of the one empty record. -/
theorem c3_deleted_single_record :
    (∀ model : ReservedIPReference,
      BindsDeletedMarker (dataSourceIBMIsVirtualNetworkInterfaceReservedIPReferenceToMap model).1
        (model.Deleted.map (fun d => d.MoreInfo))) ∧
    (∀ model : SecurityGroupReference,
      BindsDeletedMarker (dataSourceIBMIsVirtualNetworkInterfaceSecurityGroupReferenceToMap model).1
        (model.Deleted.map (fun d => d.MoreInfo))) ∧
    (∀ model : SubnetReference,
      BindsDeletedMarker (dataSourceIBMIsVirtualNetworkInterfaceSubnetReferenceToMap model).1
        (model.Deleted.map (fun d => d.MoreInfo))) ∧
    (∀ model : VPCReference,
      BindsDeletedMarker (dataSourceIBMIsVirtualNetworkInterfaceVPCReferenceToMap model).1
        (model.Deleted.map (fun d => d.MoreInfo))) ∧
    (∀ model : VirtualNetworkInterfaceTargetShareMountTargetReference,
      BindsDeletedMarker (dataSourceIBMIsVirtualNetworkInterfaceVirtualNetworkInterfaceTargetShareMountTargetReferenceToMap model).1
        (model.Deleted.map (fun d => d.MoreInfo))) ∧
    (∀ model : VirtualNetworkInterfaceTarget,
      BindsDeletedMarker (targetRecord (VirtualNetworkInterfaceTargetIntf.target model))
        (model.Deleted.map (fun d => d.MoreInfo))) := by
  refine ⟨?_, ?_, ?_, ?_, ?_, ?_⟩
  · intro model
    rcases model with ⟨_ | a0, _ | ⟨_ | mi⟩, _ | h2, _ | i3, _ | n4, _ | r5⟩ <;>
      exact ⟨fun s hs => by cases hs <;> rfl, fun hs => by cases hs <;> rfl⟩
  · intro model
    rcases model with ⟨_ | c0, _ | ⟨_ | mi⟩, _ | h2, _ | i3, _ | n4⟩ <;>
      exact ⟨fun s hs => by cases hs <;> rfl, fun hs => by cases hs <;> rfl⟩
  · intro model
    rcases model with ⟨_ | c0, _ | ⟨_ | mi⟩, _ | h2, _ | i3, _ | n4, _ | r5⟩ <;>
      exact ⟨fun s hs => by cases hs <;> rfl, fun hs => by cases hs <;> rfl⟩
  · intro model
    rcases model with ⟨_ | c0, _ | ⟨_ | mi⟩, _ | h2, _ | i3, _ | n4, _ | r5⟩ <;>
      exact ⟨fun s hs => by cases hs <;> rfl, fun hs => by cases hs <;> rfl⟩
  · intro model
    rcases model with ⟨_ | ⟨_ | mi⟩, _ | h1, _ | i2, _ | n3, _ | r4⟩ <;>
      exact ⟨fun s hs => by cases hs <;> rfl, fun hs => by cases hs <;> rfl⟩
  · intro model
    rcases model with ⟨_ | ⟨_ | mi⟩, _ | h1, _ | i2, _ | n3, _ | r4⟩ <;>
      exact ⟨fun s hs => by cases hs <;> rfl, fun hs => by cases hs <;> rfl⟩

theorem c3_deleted_single_record_witness :
    AttrMap.lookup
      (dataSourceIBMIsVirtualNetworkInterfaceSubnetReferenceToMap
        { CRN := none, Deleted := some { MoreInfo := some "https://x" }, Href := none,
          ID := some "0717-a1", Name := some "sn", ResourceType := none }).1 "deleted" =
      some (Value.list [[("more_info", Value.str "https://x")]]) :=
  (c3_deleted_single_record.2.2.1
    { CRN := none, Deleted := some { MoreInfo := some "https://x" }, Href := none,
      ID := some "0717-a1", Name := some "sn", ResourceType := none }).1 "https://x" rfl

/-- Claim C4: the resolver of the target returns an error if and only if the
target is neither a share-mount-target reference nor a generic
`VirtualNetworkInterfaceTarget`, and it then returns the unrecognized-subtype
error with the `nil` map, not an empty or default record. -/
theorem c4_target_error_iff_unrecognized (model : VirtualNetworkInterfaceTargetIntf) :
    ((dataSourceIBMIsVirtualNetworkInterfaceVirtualNetworkInterfaceTargetToMap model).2 ≠ none ↔
      ((∀ m, model ≠ VirtualNetworkInterfaceTargetIntf.shareMountTargetReference m) ∧
        (∀ m, model ≠ VirtualNetworkInterfaceTargetIntf.target m))) ∧
    (((∀ m, model ≠ VirtualNetworkInterfaceTargetIntf.shareMountTargetReference m) ∧
        (∀ m, model ≠ VirtualNetworkInterfaceTargetIntf.target m)) →
      dataSourceIBMIsVirtualNetworkInterfaceVirtualNetworkInterfaceTargetToMap model =
        (none,
          some "Unrecognized vpcbetav1.VirtualNetworkInterfaceTargetIntf subtype encountered")) := by
  cases model with
  | shareMountTargetReference m =>
    have he : (dataSourceIBMIsVirtualNetworkInterfaceVirtualNetworkInterfaceTargetToMap
        (VirtualNetworkInterfaceTargetIntf.shareMountTargetReference m)).2 = none := by
      rw [targetToMap_shareMountTargetReference]
      exact shareMountTargetReferenceToMap_error m
    exact ⟨⟨fun h => absurd he h, fun h => absurd rfl (h.1 m)⟩, fun h => absurd rfl (h.1 m)⟩
  | target m =>
    have he := targetToMap_target_error m
    exact ⟨⟨fun h => absurd he h, fun h => absurd rfl (h.2 m)⟩, fun h => absurd rfl (h.2 m)⟩
  | other typeName =>
    refine ⟨⟨fun _ => ⟨fun m h => ?_, fun m h => ?_⟩, fun _ => ?_⟩, fun _ => rfl⟩
    · cases h
    · cases h
    · rw [targetToMap_other]
      exact fun e => Option.noConfusion e

/-- Claim C5: on a share-mount-target reference the resolver succeeds and
returns what
`dataSourceIBMIsVirtualNetworkInterfaceVirtualNetworkInterfaceTargetShareMountTargetReferenceToMap`
returns for it (the same record, the same nil error); and the branch for the
generic variant, reached when the first type assertion fails and the second
succeeds, is reached only for a value that is no share-mount-target reference. -/
theorem c5_share_mount_target_dispatch
    (model : VirtualNetworkInterfaceTargetShareMountTargetReference) :
    dataSourceIBMIsVirtualNetworkInterfaceVirtualNetworkInterfaceTargetToMap
        (VirtualNetworkInterfaceTargetIntf.shareMountTargetReference model) =
      (some (dataSourceIBMIsVirtualNetworkInterfaceVirtualNetworkInterfaceTargetShareMountTargetReferenceToMap model).1,
        (dataSourceIBMIsVirtualNetworkInterfaceVirtualNetworkInterfaceTargetShareMountTargetReferenceToMap model).2) ∧
    (dataSourceIBMIsVirtualNetworkInterfaceVirtualNetworkInterfaceTargetToMap
        (VirtualNetworkInterfaceTargetIntf.shareMountTargetReference model)).2 = none ∧
    (∀ t : VirtualNetworkInterfaceTargetIntf,
      (t.assertShareMountTargetReference = none ∧
          ∃ g, t.assertVirtualNetworkInterfaceTarget = some g) →
        ∀ m, t ≠ VirtualNetworkInterfaceTargetIntf.shareMountTargetReference m) := by
  refine ⟨targetToMap_shareMountTargetReference model, ?_, ?_⟩
  · rw [targetToMap_shareMountTargetReference]
    exact shareMountTargetReferenceToMap_error model
  · rintro t ⟨h1, -⟩ m rfl
    cases h1

theorem shareMountTargetAttributeNames_eq :
    shareMountTargetAttributeNames = {"deleted", "href", "id", "name", "resource_type"} := by
  ext k
  constructor
  · rintro ⟨m, hk⟩
    have hs : AttrMap.keys
        (targetRecord (VirtualNetworkInterfaceTargetIntf.shareMountTargetReference m)) ⊆
        ["deleted", "href", "id", "name", "resource_type"] := by
      intro x hx
      have hb : ∀ r : AttrMap,
          (AttrMap.keys r).all
            (fun y => decide (y ∈ ["deleted", "href", "id", "name", "resource_type"])) = true →
          x ∈ AttrMap.keys r → x ∈ ["deleted", "href", "id", "name", "resource_type"] := by
        intro r hr hxr
        have := List.all_eq_true.1 hr x hxr
        simpa using this
      refine hb _ ?_ hx
      rcases m with ⟨_ | ⟨_ | mi⟩, _ | h1, _ | i2, _ | n3, _ | r4⟩ <;> rfl
    simpa using hs hk
  · intro hk
    have hk1 : k ∈ ["deleted", "href", "id", "name", "resource_type"] := by simpa using hk
    exact ⟨⟨some ⟨none⟩, some "", some "", some "", some ""⟩, hk1⟩

theorem genericTargetAttributeNames_eq :
    genericTargetAttributeNames = {"deleted", "href", "id", "name", "resource_type"} := by
  ext k
  constructor
  · rintro ⟨m, hk⟩
    have hs : AttrMap.keys (targetRecord (VirtualNetworkInterfaceTargetIntf.target m)) ⊆
        ["deleted", "href", "id", "name", "resource_type"] := by
      intro x hx
      have hb : ∀ r : AttrMap,
          (AttrMap.keys r).all
            (fun y => decide (y ∈ ["deleted", "href", "id", "name", "resource_type"])) = true →
          x ∈ AttrMap.keys r → x ∈ ["deleted", "href", "id", "name", "resource_type"] := by
        intro r hr hxr
        have := List.all_eq_true.1 hr x hxr
        simpa using this
      refine hb _ ?_ hx
      rcases m with ⟨_ | ⟨_ | mi⟩, _ | h1, _ | i2, _ | n3, _ | r4⟩ <;> rfl
    simpa using hs hk
  · intro hk
    have hk1 : k ∈ ["deleted", "href", "id", "name", "resource_type"] := by simpa using hk
    exact ⟨⟨some ⟨none⟩, some "", some "", some "", some ""⟩, hk1⟩

/-- Claim C6, as stated, fails: the attribute names the resolver can emit for a
share-mount-target reference and for a generic `VirtualNetworkInterfaceTarget`
do not differ. -/
theorem c6_target_variant_names_do_not_differ :
    ¬ (shareMountTargetAttributeNames ≠ genericTargetAttributeNames) := by
  rw [shareMountTargetAttributeNames_eq, genericTargetAttributeNames_eq]
  exact fun h => h rfl

/-- Claim C6, amended: the two variants of the target map to the same output
shape; for each of them the attribute names the resolver can emit are exactly
`deleted`, `href`, `id`, `name` and `resource_type`. -/
theorem c6_target_variants_same_names :
    shareMountTargetAttributeNames = {"deleted", "href", "id", "name", "resource_type"} ∧
    genericTargetAttributeNames = {"deleted", "href", "id", "name", "resource_type"} ∧
    shareMountTargetAttributeNames = genericTargetAttributeNames := by
  refine ⟨shareMountTargetAttributeNames_eq, genericTargetAttributeNames_eq, ?_⟩
  rw [shareMountTargetAttributeNames_eq, genericTargetAttributeNames_eq]
end vpc

/-! ## Running a read operation -/

section steps
variable {α β : Type}

instance : LawfulMonad ReadM := LawfulMonad.mk' ReadM
  (by
    intro α x
    funext d
    show (match x d with
      | Outcome.next a d1 => Outcome.next (id a) d1
      | Outcome.returned diags d1 => Outcome.returned diags d1
      | Outcome.panicked => Outcome.panicked) = x d
    cases x d <;> rfl)
  (by intros; rfl)
  (by
    intro α β γ x f g
    funext d
    show (match (match x d with
        | Outcome.next a d1 => f a d1
        | Outcome.returned diags d1 => Outcome.returned diags d1
        | Outcome.panicked => Outcome.panicked) with
      | Outcome.next a d1 => g a d1
      | Outcome.returned diags d1 => Outcome.returned diags d1
      | Outcome.panicked => Outcome.panicked) =
      (match x d with
      | Outcome.next a d1 => (f a >>= g) d1
      | Outcome.returned diags d1 => Outcome.returned diags d1
      | Outcome.panicked => Outcome.panicked)
    cases x d <;> rfl)

theorem ReadM.pure_run (a : α) (d : ResourceData) :
    (pure a : ReadM α) d = Outcome.next a d := rfl

theorem ReadM.returnDiags_run (g : diag.Diagnostics) (d : ResourceData) :
    (ReadM.returnDiags g : ReadM α) d = Outcome.returned g d := rfl

theorem ReadM.returnIf_false (g : diag.Diagnostics) : ReadM.returnIf false g = pure () := rfl

theorem ReadM.returnIf_bind_run (c : Bool) (g : diag.Diagnostics)
    (f : Unit → ReadM β) (d : ResourceData) :
    (ReadM.returnIf c g >>= f) d = if c = true then Outcome.returned g d else f () d := by
  cases c <;> rfl

theorem ReadM.deref_bind_run (o : Option α) (f : α → ReadM β) (d : ResourceData) :
    (ReadM.deref o >>= f) d = match o with
      | some a => f a d
      | none => Outcome.panicked := by
  cases o <;> rfl

theorem ResourceData.GetString_bind_run (key : String) (f : String → ReadM β)
    (d : ResourceData) :
    (ResourceData.GetString key >>= f) d = f (d.getString key) d := rfl

theorem ResourceData.SetId_bind_run (v : String) (f : Unit → ReadM β) (d : ResourceData) :
    (ResourceData.SetId v >>= f) d = f () { d with id := v } := rfl

/-- A `d.Set` followed by the check of its error. -/
theorem ResourceData.Set_check_run (se : String → Value → GoError) (key : String) (v : Value)
    (g : GoError → diag.Diagnostics) (f : Unit → ReadM β) (d : ResourceData) :
    (ResourceData.Set se key v >>= fun err => ReadM.returnIf err.isSome (g err) >>= f) d =
      match se key v with
      | none => f () { d with attrs := AttrMap.store d.attrs key v }
      | some e => Outcome.returned (g (some e)) d := by
  cases hs : se key v <;> simp [ResourceData.Set, ReadM.returnIf, bind, hs]

theorem diag.FromErr_eq_nil (e : GoError) : diag.FromErr e = [] ↔ e = none := by
  cases e <;> simp [diag.FromErr]

theorem ReadM.bind_run_of_next {x : ReadM α} (v : α)
    (hx : ∀ d, x d = Outcome.next v d) (f : α → ReadM β) (d : ResourceData) :
    (x >>= f) d = f v d := by
  have hp : x = pure v := funext hx
  rw [hp, pure_bind]

end steps

namespace vpc

theorem rangeSecurityGroups_run (items : List SecurityGroupReference)
    (securityGroups : List AttrMap) (d : ResourceData) :
    dataSourceIBMIsVirtualNetworkInterfaceRead.rangeSecurityGroups items securityGroups d =
      Outcome.next (securityGroups ++ items.map
        (fun g => (dataSourceIBMIsVirtualNetworkInterfaceSecurityGroupReferenceToMap g).1)) d := by
  have hloop : ∀ (items : List SecurityGroupReference) (acc : List AttrMap),
      dataSourceIBMIsVirtualNetworkInterfaceRead.rangeSecurityGroups items acc =
        pure (acc ++ items.map
          (fun g => (dataSourceIBMIsVirtualNetworkInterfaceSecurityGroupReferenceToMap g).1)) := by
    intro items
    unfold dataSourceIBMIsVirtualNetworkInterfaceRead.rangeSecurityGroups
    induction items with
    | nil => intro acc; simp
    | cons g rest ih =>
      intro acc
      have ih1 := ih (acc ++ [(dataSourceIBMIsVirtualNetworkInterfaceSecurityGroupReferenceToMap g).1])
      simp only [bind_pure, securityGroupReferenceToMap_error, Option.isSome_none,
        ReadM.returnIf_false, pure_bind] at ih1 ⊢
      simp only [List.forIn_cons, pure_bind]
      rw [ih1]
      simp
  rw [hloop]
  rfl

end vpc

namespace vpc

theorem read_returned_nil (host : Host) (session : ClientSession) (d d1 : ResourceData)
    (client : VpcbetaV1) (vni : VirtualNetworkInterface)
    (hc : session.VpcV1BetaAPI.1 = some client)
    (hv : (client.GetVirtualNetworkInterfaceWithContext
      { ID := some (d.getString "virtual_network_interface") }).1 = some vni)
    (h : dataSourceIBMIsVirtualNetworkInterfaceRead host session d = Outcome.returned [] d1) :
    d1.attrs = attributesAfterRead host vni d.attrs ∧ vni.ID = some d1.id := by
  unfold dataSourceIBMIsVirtualNetworkInterfaceRead at h
  simp only [ReadM.returnIf_bind_run, ReadM.deref_bind_run, ResourceData.GetString_bind_run,
    ResourceData.SetId_bind_run, ResourceData.Set_check_run, ReadM.returnDiags_run, hc, hv] at h
  split at h
  · rename_i he
    simp [diag.FromErr_eq_nil] at h
    simp [h.1] at he
  split at h
  · rename_i he
    simp [diag.FromErr, fmt.Errorf] at h
  split at h
  swap
  · cases h
  rename_i id hid
  split at h
  swap
  · simp [diag.FromErr, fmt.Errorf] at h
  split at h
  swap
  · simp [diag.FromErr, fmt.Errorf] at h
  split at h
  swap
  · simp [diag.FromErr, fmt.Errorf] at h
  split at h
  swap
  · simp [diag.FromErr, fmt.Errorf] at h
  split at h
  swap
  · simp [diag.FromErr, fmt.Errorf] at h
  split at h
  swap
  · simp [diag.FromErr, fmt.Errorf] at h
  rw [ReadM.bind_run_of_next (nestedObject
    (fun m => (dataSourceIBMIsVirtualNetworkInterfaceReservedIPReferenceToMap m).1) vni.PrimaryIP) ?_] at h
  swap
  · intro d0
    cases vni.PrimaryIP <;>
      simp [nestedObject, reservedIPReferenceToMap_error, ReadM.returnIf_false, ReadM.pure_run]
  simp only [ResourceData.Set_check_run] at h
  split at h
  swap
  · simp [diag.FromErr, fmt.Errorf] at h
  rw [ReadM.bind_run_of_next (nestedObject
    (fun m => (dataSourceIBMIsVirtualNetworkInterfaceResourceGroupReferenceToMap m).1) vni.ResourceGroup) ?_] at h
  swap
  · intro d0
    cases vni.ResourceGroup <;>
      simp [nestedObject, resourceGroupReferenceToMap_error, ReadM.returnIf_false, ReadM.pure_run]
  simp only [ResourceData.Set_check_run] at h
  split at h
  swap
  · simp [diag.FromErr, fmt.Errorf] at h
  split at h
  swap
  · simp [diag.FromErr, fmt.Errorf] at h
  rw [ReadM.bind_run_of_next ((Slice.elems vni.SecurityGroups).map
    (fun m => (dataSourceIBMIsVirtualNetworkInterfaceSecurityGroupReferenceToMap m).1)) ?_] at h
  swap
  · intro d0
    cases hs : vni.SecurityGroups <;>
      simp [Slice.elems, rangeSecurityGroups_run, ReadM.pure_run]
  simp only [ResourceData.Set_check_run] at h
  split at h
  swap
  · simp [diag.FromErr, fmt.Errorf] at h
  rw [ReadM.bind_run_of_next (nestedObject
    (fun m => (dataSourceIBMIsVirtualNetworkInterfaceSubnetReferenceToMap m).1) vni.Subnet) ?_] at h
  swap
  · intro d0
    cases vni.Subnet <;>
      simp [nestedObject, subnetReferenceToMap_error, ReadM.returnIf_false, ReadM.pure_run]
  simp only [ResourceData.Set_check_run] at h
  split at h
  swap
  · simp [diag.FromErr, fmt.Errorf] at h
  by_cases hto : ∃ n, vni.Target = some (VirtualNetworkInterfaceTargetIntf.other n)
  · obtain ⟨n, hn⟩ := hto
    rw [hn] at h
    simp [targetToMap_other, ReadM.returnIf_bind_run, diag.FromErr] at h
  rw [ReadM.bind_run_of_next (nestedObject targetRecord vni.Target) ?_] at h
  swap
  · intro d0
    rcases ht : vni.Target with _ | (ms | mt | n)
    · simp [nestedObject, ReadM.pure_run]
    · simp [nestedObject, targetRecord, targetToMap_shareMountTargetReference,
        shareMountTargetReferenceToMap_error, ReadM.returnIf_false, ReadM.pure_run]
    · simp [nestedObject, targetRecord, targetToMap_target_error, ReadM.returnIf_false,
        ReadM.pure_run]
    · exact absurd ⟨n, ht⟩ hto
  simp only [ResourceData.Set_check_run] at h
  split at h
  swap
  · simp [diag.FromErr, fmt.Errorf] at h
  rw [ReadM.bind_run_of_next (nestedObject
    (fun m => (dataSourceIBMIsVirtualNetworkInterfaceVPCReferenceToMap m).1) vni.VPC) ?_] at h
  swap
  · intro d0
    cases vni.VPC <;>
      simp [nestedObject, vpcReferenceToMap_error, ReadM.returnIf_false, ReadM.pure_run]
  simp only [ResourceData.Set_check_run] at h
  split at h
  swap
  · simp [diag.FromErr, fmt.Errorf] at h
  rw [ReadM.bind_run_of_next (nestedObject
    (fun m => (dataSourceIBMIsVirtualNetworkInterfaceZoneReferenceToMap m).1) vni.Zone) ?_] at h
  swap
  · intro d0
    cases vni.Zone <;>
      simp [nestedObject, zoneReferenceToMap_error, ReadM.returnIf_false, ReadM.pure_run]
  simp only [ResourceData.Set_check_run] at h
  split at h
  swap
  · simp [diag.FromErr, fmt.Errorf] at h
  simp only [ReadM.returnDiags] at h
  cases h
  exact ⟨rfl, hid⟩

/-- What a successful read leaves under each key it sets. -/
theorem attributesAfterRead_lookup (host : Host) (vni : VirtualNetworkInterface)
    (attrs : AttrMap) :
    AttrMap.lookup (attributesAfterRead host vni attrs) "primary_ip" =
      some (Value.list (nestedObject
        (fun m => (dataSourceIBMIsVirtualNetworkInterfaceReservedIPReferenceToMap m).1)
        vni.PrimaryIP)) ∧
    AttrMap.lookup (attributesAfterRead host vni attrs) "resource_group" =
      some (Value.list (nestedObject
        (fun m => (dataSourceIBMIsVirtualNetworkInterfaceResourceGroupReferenceToMap m).1)
        vni.ResourceGroup)) ∧
    AttrMap.lookup (attributesAfterRead host vni attrs) "security_groups" =
      some (Value.list ((Slice.elems vni.SecurityGroups).map
        (fun m => (dataSourceIBMIsVirtualNetworkInterfaceSecurityGroupReferenceToMap m).1))) ∧
    AttrMap.lookup (attributesAfterRead host vni attrs) "subnet" =
      some (Value.list (nestedObject
        (fun m => (dataSourceIBMIsVirtualNetworkInterfaceSubnetReferenceToMap m).1)
        vni.Subnet)) ∧
    AttrMap.lookup (attributesAfterRead host vni attrs) "target" =
      some (Value.list (nestedObject targetRecord vni.Target)) ∧
    AttrMap.lookup (attributesAfterRead host vni attrs) "vpc" =
      some (Value.list (nestedObject
        (fun m => (dataSourceIBMIsVirtualNetworkInterfaceVPCReferenceToMap m).1) vni.VPC)) ∧
    AttrMap.lookup (attributesAfterRead host vni attrs) "zone" =
      some (Value.list (nestedObject
        (fun m => (dataSourceIBMIsVirtualNetworkInterfaceZoneReferenceToMap m).1) vni.Zone)) := by
  simp [attributesAfterRead, List.foldl, AttrMap.lookup_store]

end vpc

namespace vpc

/-- Claim C7: a read that succeeds (returns no diagnostics) on the interface
`vni` the client returned leaves each of `primary_ip`, `resource_group`,
`subnet`, `target`, `vpc` and `zone` bound to the empty sequence when the
source pointer is nil and to the sequence of the one flattened record of the
source object when it is not. -/
theorem c7_nested_objects_zero_or_one (host : Host) (session : ClientSession)
    (d d1 : ResourceData) (client : VpcbetaV1) (vni : VirtualNetworkInterface)
    (hc : session.VpcV1BetaAPI.1 = some client)
    (hv : (client.GetVirtualNetworkInterfaceWithContext
      { ID := some (d.getString "virtual_network_interface") }).1 = some vni)
    (h : dataSourceIBMIsVirtualNetworkInterfaceRead host session d = Outcome.returned [] d1) :
    AttrMap.lookup d1.attrs "primary_ip" =
      some (Value.list (nestedObject
        (fun m => (dataSourceIBMIsVirtualNetworkInterfaceReservedIPReferenceToMap m).1)
        vni.PrimaryIP)) ∧
    AttrMap.lookup d1.attrs "resource_group" =
      some (Value.list (nestedObject
        (fun m => (dataSourceIBMIsVirtualNetworkInterfaceResourceGroupReferenceToMap m).1)
        vni.ResourceGroup)) ∧
    AttrMap.lookup d1.attrs "subnet" =
      some (Value.list (nestedObject
        (fun m => (dataSourceIBMIsVirtualNetworkInterfaceSubnetReferenceToMap m).1)
        vni.Subnet)) ∧
    AttrMap.lookup d1.attrs "target" =
      some (Value.list (nestedObject
        (fun m =>
          (dataSourceIBMIsVirtualNetworkInterfaceVirtualNetworkInterfaceTargetToMap m).1.getD [])
        vni.Target)) ∧
    AttrMap.lookup d1.attrs "vpc" =
      some (Value.list (nestedObject
        (fun m => (dataSourceIBMIsVirtualNetworkInterfaceVPCReferenceToMap m).1) vni.VPC)) ∧
    AttrMap.lookup d1.attrs "zone" =
      some (Value.list (nestedObject
        (fun m => (dataSourceIBMIsVirtualNetworkInterfaceZoneReferenceToMap m).1) vni.Zone)) := by
  obtain ⟨ha, -⟩ := read_returned_nil host session d d1 client vni hc hv h
  obtain ⟨h1, h2, -, h4, h5, h6, h7⟩ := attributesAfterRead_lookup host vni d.attrs
  rw [ha]
  exact ⟨h1, h2, h4, h5, h6, h7⟩

theorem exampleRead_run :
    dataSourceIBMIsVirtualNetworkInterfaceRead exampleHost exampleSession exampleData =
      Outcome.returned []
        { id := "0717-vni",
          attrs := attributesAfterRead exampleHost exampleInterface exampleData.attrs } := by
  rfl

theorem c7_nested_objects_zero_or_one_witness :
    AttrMap.lookup (attributesAfterRead exampleHost exampleInterface exampleData.attrs) "subnet" =
      some (Value.list
        [(dataSourceIBMIsVirtualNetworkInterfaceSubnetReferenceToMap
          { CRN := none, Deleted := none, Href := none, ID := some "0717-sn", Name := some "sn",
            ResourceType := some "subnet" }).1]) ∧
    AttrMap.lookup (attributesAfterRead exampleHost exampleInterface exampleData.attrs) "zone" =
      some (Value.list []) :=
  have h := c7_nested_objects_zero_or_one exampleHost exampleSession exampleData
    { id := "0717-vni",
      attrs := attributesAfterRead exampleHost exampleInterface exampleData.attrs }
    { GetVirtualNetworkInterfaceWithContext := fun _ => (some exampleInterface, "", none) }
    exampleInterface rfl rfl exampleRead_run
  ⟨h.2.2.1, h.2.2.2.2.2⟩

end vpc

/-! ## The snapshot flattener -/

/-- A loop that appends `g i` for each element `i` and stops for good at the
first `none` collects, when it ends, one result for each element, in order. -/
theorem forIn_collect_eq_some {α β : Type} (g : α → Option β)
    (f : α → List β → Option (ForInStep (List β)))
    (hf : ∀ i r, f i r = (g i).bind fun l => some (ForInStep.yield (r ++ [l])))
    (items : List α) (acc res : List β) :
    forIn items acc f = some res ↔
      ∃ out, res = acc ++ out ∧ List.Forall₂ (fun x r => g x = some r) items out := by
  induction items generalizing acc with
  | nil =>
    simp only [List.forIn_nil, List.forall₂_nil_left_iff]
    constructor
    · intro h
      cases h
      exact ⟨[], by simp, rfl⟩
    · rintro ⟨out, rfl, rfl⟩
      simp
  | cons i rest ih =>
    rw [List.forIn_cons, hf]
    cases hg : g i with
    | none =>
      constructor
      · intro h
        cases h
      · rintro ⟨out, -, hall⟩
        cases hall with
        | cons h1 _ => rw [hg] at h1; cases h1
    | some r =>
      show forIn rest (acc ++ [r]) f = some res ↔ _
      rw [ih]
      constructor
      · rintro ⟨out, rfl, hall⟩
        exact ⟨r :: out, by simp, List.Forall₂.cons hg hall⟩
      · rintro ⟨out, rfl, hall⟩
        cases hall with
        | cons h1 h2 =>
          rw [hg] at h1
          cases h1
          exact ⟨_, by simp, h2⟩

theorem exists_of_forall₂_of_mem {α β : Type} {R : α → β → Prop} {items : List α}
    {out : List β} (h : List.Forall₂ R items out) {x : α} (hx : x ∈ items) : ∃ r, R x r := by
  induction h with
  | nil => cases hx
  | cons h1 _ ih =>
    rcases List.mem_cons.1 hx with rfl | hm
    · exact ⟨_, h1⟩
    · exact ih hm

namespace power

theorem flattenPVMSnapshotInstances_eq_some (pkg : Package) (list : Slice (Option Snapshot))
    (out : List AttrMap) :
    flattenPVMSnapshotInstances pkg list = some out ↔
      List.Forall₂ (fun x r => flattenPVMSnapshotInstances.l pkg x = some r)
        (Slice.elems list) out := by
  unfold flattenPVMSnapshotInstances
  simp only [bind_pure]
  refine (forIn_collect_eq_some (flattenPVMSnapshotInstances.l pkg) _ ?_ _ _ _).trans ?_
  · intro i r
    cases flattenPVMSnapshotInstances.l pkg i <;> rfl
  · simp

theorem flattenPVMSnapshotInstances.l_eq_none (pkg : Package) (i : Option Snapshot) :
    flattenPVMSnapshotInstances.l pkg i = none ↔
      i = none ∨ ∃ s, i = some s ∧ (s.SnapshotID = none ∨ s.Name = none) := by
  rcases i with _ | ⟨a, c, de, lu, _ | n, pc, _ | sid, st, vs⟩ <;>
    simp [flattenPVMSnapshotInstances.l]

theorem exists_forall₂_of_forall_isSome {α β : Type} (g : α → Option β) (items : List α)
    (h : ∀ x ∈ items, g x ≠ none) :
    ∃ out, List.Forall₂ (fun x r => g x = some r) items out := by
  induction items with
  | nil => exact ⟨[], List.Forall₂.nil⟩
  | cons i rest ih =>
    obtain ⟨out, ho⟩ := ih (fun x hx => h x (List.mem_cons_of_mem _ hx))
    cases hg : g i with
    | none => exact absurd hg (h i (List.mem_cons_self _ _))
    | some r => exact ⟨r :: out, List.Forall₂.cons hg ho⟩

theorem flattenPVMSnapshotInstances_eq_none (pkg : Package) (list : Slice (Option Snapshot)) :
    flattenPVMSnapshotInstances pkg list = none ↔
      ∃ x ∈ Slice.elems list, flattenPVMSnapshotInstances.l pkg x = none := by
  constructor
  · intro h
    by_contra hne
    push_neg at hne
    obtain ⟨out, ho⟩ := exists_forall₂_of_forall_isSome _ _ hne
    rw [(flattenPVMSnapshotInstances_eq_some pkg list out).2 ho] at h
    cases h
  · rintro ⟨x, hx, hn⟩
    cases hf : flattenPVMSnapshotInstances pkg list with
    | none => rfl
    | some out =>
      have hall := (flattenPVMSnapshotInstances_eq_some pkg list out).1 hf
      obtain ⟨r, hr⟩ := exists_of_forall₂_of_mem hall hx
      rw [hn] at hr
      cases hr

end power

namespace power

/-- What the map literal binds, for a snapshot with identifier and name, in a
package whose keys are distinct. -/
theorem l_lookup (pkg : Package) (hk : pkg.literalKeys.Nodup) (s : Snapshot) (id name : String)
    (hid : s.SnapshotID = some id) (hname : s.Name = some name) :
    ∃ r, flattenPVMSnapshotInstances.l pkg (some s) = some r ∧
      AttrMap.lookup r pkg.Attr_VolumeSnapshots = some (Value.strMap s.VolumeSnapshots) ∧
      AttrMap.lookup r pkg.Attr_ID = some (Value.str id) ∧
      AttrMap.lookup r pkg.Attr_Name = some (Value.str name) ∧
      AttrMap.lookup r pkg.Attr_Action = some (Value.str s.Action) ∧
      AttrMap.lookup r pkg.Attr_Description = some (Value.str s.Description) ∧
      AttrMap.lookup r pkg.Attr_Status = some (Value.str s.Status) ∧
      AttrMap.lookup r pkg.Attr_PercentComplete = some (Value.int s.PercentComplete) := by
  simp only [Package.literalKeys, List.nodup_cons, List.mem_cons, List.mem_singleton,
    List.not_mem_nil, not_or, or_false, List.nodup_nil, and_true, not_false_eq_true] at hk
  obtain ⟨⟨a1, a2, a3, a4, a5, a6, a7, a8⟩, ⟨b2, b3, b4, b5, b6, b7, b8⟩, ⟨c3, c4, c5, c6, c7, c8⟩,
    ⟨d4, d5, d6, d7, d8⟩, ⟨e5, e6, e7, e8⟩, ⟨f6, f7, f8⟩, ⟨g7, g8⟩, h8⟩ := hk
  refine ⟨_, by simp [flattenPVMSnapshotInstances.l, hid, hname]; rfl, ?_⟩
  simp [AttrMap.lookup, *]

end power

/-! ## The claims on the lists and the snapshot records -/

/-- Claim C8: on a list whose elements are all non-nil with non-nil
`SnapshotID` and `Name`, `flattenPVMSnapshotInstances` returns a sequence of
the same length whose k-th record is the record built from the k-th snapshot;
on a nil slice and on an empty one it returns the empty sequence; and after a
successful read of a virtual network interface `security_groups` is bound to a
sequence with one record for each source security group, the k-th being the
flattening of the k-th source element. -/
theorem c8_lists_keep_length_and_order :
    (∀ (pkg : power.Package) (list : Slice (Option power.Snapshot)),
      (∀ x ∈ Slice.elems list,
        ∃ s id name, x = some s ∧ s.SnapshotID = some id ∧ s.Name = some name) →
      ∃ out, power.flattenPVMSnapshotInstances pkg list = some out ∧
        out.length = (Slice.elems list).length ∧
        ∀ k (h1 : k < (Slice.elems list).length) (h2 : k < out.length),
          power.flattenPVMSnapshotInstances.l pkg ((Slice.elems list).get ⟨k, h1⟩) =
            some (out.get ⟨k, h2⟩)) ∧
    (∀ pkg : power.Package,
      power.flattenPVMSnapshotInstances pkg none = some [] ∧
      power.flattenPVMSnapshotInstances pkg (some []) = some []) ∧
    (∀ (host : vpc.Host) (session : vpc.ClientSession) (d d1 : ResourceData)
      (client : vpc.VpcbetaV1) (vni : vpc.VirtualNetworkInterface),
      session.VpcV1BetaAPI.1 = some client →
      (client.GetVirtualNetworkInterfaceWithContext
        { ID := some (d.getString "virtual_network_interface") }).1 = some vni →
      vpc.dataSourceIBMIsVirtualNetworkInterfaceRead host session d = Outcome.returned [] d1 →
      ∃ out, AttrMap.lookup d1.attrs "security_groups" = some (Value.list out) ∧
        out.length = (Slice.elems vni.SecurityGroups).length ∧
        ∀ k (h1 : k < (Slice.elems vni.SecurityGroups).length) (h2 : k < out.length),
          out.get ⟨k, h2⟩ =
            (vpc.dataSourceIBMIsVirtualNetworkInterfaceSecurityGroupReferenceToMap
              ((Slice.elems vni.SecurityGroups).get ⟨k, h1⟩)).1) := by
  refine ⟨?_, ?_, ?_⟩
  · intro pkg list hall
    have hne : ∀ x ∈ Slice.elems list, power.flattenPVMSnapshotInstances.l pkg x ≠ none := by
      intro x hx hn
      obtain ⟨s, id, name, rfl, hid, hname⟩ := hall x hx
      rcases (power.flattenPVMSnapshotInstances.l_eq_none pkg (some s)).1 hn with h | ⟨t, ht, h⟩
      · cases h
      · cases ht
        rcases h with h | h
        · rw [hid] at h; cases h
        · rw [hname] at h; cases h
    obtain ⟨out, ho⟩ := power.exists_forall₂_of_forall_isSome _ _ hne
    refine ⟨out, (power.flattenPVMSnapshotInstances_eq_some pkg list out).2 ho,
      ho.length_eq.symm, ?_⟩
    intro k h1 h2
    exact (List.forall₂_iff_get.1 ho).2 k h1 h2
  · intro pkg
    exact ⟨rfl, rfl⟩
  · intro host session d d1 client vni hc hv h
    obtain ⟨ha, -⟩ := vpc.read_returned_nil host session d d1 client vni hc hv h
    obtain ⟨-, -, h3, -⟩ := vpc.attributesAfterRead_lookup host vni d.attrs
    rw [ha]
    refine ⟨_, h3, by simp, ?_⟩
    intro k h1 h2
    simp

theorem c8_lists_keep_length_and_order_witness :
    ∃ out, power.flattenPVMSnapshotInstances power.examplePackage
        (some [some power.exampleSnapshot, some power.exampleSnapshotB]) = some out ∧
      out.length = 2 ∧
      power.flattenPVMSnapshotInstances.l power.examplePackage (some power.exampleSnapshotB) =
        out[1]? := by
  obtain ⟨out, h1, h2, h3⟩ := c8_lists_keep_length_and_order.1 power.examplePackage
    (some [some power.exampleSnapshot, some power.exampleSnapshotB])
    (by
      intro x hx
      simp only [Slice.elems, List.mem_cons, List.mem_singleton, List.not_mem_nil, or_false] at hx
      rcases hx with rfl | rfl
      · exact ⟨_, _, _, rfl, rfl, rfl⟩
      · exact ⟨_, _, _, rfl, rfl, rfl⟩)
  have hl : out.length = 2 := h2
  refine ⟨out, h1, hl, ?_⟩
  have := h3 1 (by decide) (by omega)
  rw [List.getElem?_eq_getElem (by omega)]
  exact this

/-- Claim C9: when `flattenPVMSnapshotInstances` returns, the record at the
place of a snapshot `s` with identifier `id` and name `name` binds the
volume-snapshots attribute to the volume-snapshot mapping of `s` as it is, the
id and name attributes to `id` and `name`, and the action, description, status
and percent-complete attributes to those fields of `s` (the attribute names of
the package being distinct, as in every package that compiles). -/
theorem c9_snapshot_record_fields (pkg : power.Package) (hk : pkg.literalKeys.Nodup)
    (list : Slice (Option power.Snapshot)) (out : List AttrMap)
    (h : power.flattenPVMSnapshotInstances pkg list = some out)
    (k : Nat) (h1 : k < (Slice.elems list).length) (h2 : k < out.length)
    (s : power.Snapshot) (id name : String)
    (hs : (Slice.elems list).get ⟨k, h1⟩ = some s)
    (hid : s.SnapshotID = some id) (hname : s.Name = some name) :
    AttrMap.lookup (out.get ⟨k, h2⟩) pkg.Attr_VolumeSnapshots =
      some (Value.strMap s.VolumeSnapshots) ∧
    AttrMap.lookup (out.get ⟨k, h2⟩) pkg.Attr_ID = some (Value.str id) ∧
    AttrMap.lookup (out.get ⟨k, h2⟩) pkg.Attr_Name = some (Value.str name) ∧
    AttrMap.lookup (out.get ⟨k, h2⟩) pkg.Attr_Action = some (Value.str s.Action) ∧
    AttrMap.lookup (out.get ⟨k, h2⟩) pkg.Attr_Description = some (Value.str s.Description) ∧
    AttrMap.lookup (out.get ⟨k, h2⟩) pkg.Attr_Status = some (Value.str s.Status) ∧
    AttrMap.lookup (out.get ⟨k, h2⟩) pkg.Attr_PercentComplete =
      some (Value.int s.PercentComplete) := by
  have hall := (power.flattenPVMSnapshotInstances_eq_some pkg list out).1 h
  have hr := (List.forall₂_iff_get.1 hall).2 k h1 h2
  rw [hs] at hr
  obtain ⟨r, hr1, hl⟩ := power.l_lookup pkg hk s id name hid hname
  rw [hr1] at hr
  cases hr
  exact hl

theorem c9_snapshot_record_fields_witness :
    AttrMap.lookup
        ([[("action", Value.str "snapshot"), ("creation_date", Value.str "1"),
            ("description", Value.str "nightly"), ("id", Value.str "s-1"),
            ("last_updated_date", Value.str "2"), ("name", Value.str "snap-a"),
            ("percent_complete", Value.int 100), ("status", Value.str "available"),
            ("volume_snapshots", Value.strMap [("vol-1", "vs-1"), ("vol-2", "vs-2")])]].get
          ⟨0, by decide⟩)
        "volume_snapshots" =
      some (Value.strMap [("vol-1", "vs-1"), ("vol-2", "vs-2")]) :=
  (c9_snapshot_record_fields power.examplePackage (by decide)
    (some [some power.exampleSnapshot]) _ (by rfl) 0 (by decide) (by decide)
    power.exampleSnapshot "s-1" "snap-a" rfl rfl rfl).1

/-- Claim C10: `flattenPVMSnapshotInstances` panics (returns nothing) exactly
on the lists with a nil element or an element whose `SnapshotID` or `Name` is
nil, and returns on every other list; when it returns, every element of the
list is a snapshot with an identifier and a name and has its own record, so no
record stands for a nil identifier or name. -/
theorem c10_snapshots_fail_fast (pkg : power.Package) (list : Slice (Option power.Snapshot)) :
    (power.flattenPVMSnapshotInstances pkg list = none ↔
      ∃ x ∈ Slice.elems list,
        x = none ∨ ∃ s, x = some s ∧ (s.SnapshotID = none ∨ s.Name = none)) ∧
    ((¬ ∃ x ∈ Slice.elems list,
        x = none ∨ ∃ s, x = some s ∧ (s.SnapshotID = none ∨ s.Name = none)) →
      ∃ out, power.flattenPVMSnapshotInstances pkg list = some out) ∧
    (∀ out, power.flattenPVMSnapshotInstances pkg list = some out →
      out.length = (Slice.elems list).length ∧
      ∀ x ∈ Slice.elems list,
        ∃ s id name, x = some s ∧ s.SnapshotID = some id ∧ s.Name = some name) := by
  have hiff : power.flattenPVMSnapshotInstances pkg list = none ↔
      ∃ x ∈ Slice.elems list,
        x = none ∨ ∃ s, x = some s ∧ (s.SnapshotID = none ∨ s.Name = none) := by
    rw [power.flattenPVMSnapshotInstances_eq_none]
    constructor
    · rintro ⟨x, hx, hn⟩
      exact ⟨x, hx, (power.flattenPVMSnapshotInstances.l_eq_none pkg x).1 hn⟩
    · rintro ⟨x, hx, hn⟩
      exact ⟨x, hx, (power.flattenPVMSnapshotInstances.l_eq_none pkg x).2 hn⟩
  refine ⟨hiff, ?_, ?_⟩
  · intro hno
    cases hf : power.flattenPVMSnapshotInstances pkg list with
    | none => exact absurd (hiff.1 hf) hno
    | some out => exact ⟨out, rfl⟩
  · intro out ho
    have hall := (power.flattenPVMSnapshotInstances_eq_some pkg list out).1 ho
    refine ⟨hall.length_eq.symm, ?_⟩
    intro x hx
    have hno : ¬ ∃ x ∈ Slice.elems list,
        x = none ∨ ∃ s, x = some s ∧ (s.SnapshotID = none ∨ s.Name = none) := by
      intro hex
      rw [hiff.2 hex] at ho
      cases ho
    rcases x with _ | s
    · exact absurd ⟨none, hx, Or.inl rfl⟩ hno
    · rcases hid : s.SnapshotID with _ | id
      · exact absurd ⟨some s, hx, Or.inr ⟨s, rfl, Or.inl hid⟩⟩ hno
      · rcases hname : s.Name with _ | name
        · exact absurd ⟨some s, hx, Or.inr ⟨s, rfl, Or.inr hname⟩⟩ hno
        · exact ⟨s, id, name, rfl, hid, hname⟩

theorem c10_snapshots_fail_fast_witness :
    power.flattenPVMSnapshotInstances power.examplePackage
        (some [some power.exampleSnapshot, none]) = none ∧
    power.flattenPVMSnapshotInstances power.examplePackage
        (some [some { power.exampleSnapshot with SnapshotID := none }]) = none ∧
    power.flattenPVMSnapshotInstances power.examplePackage
        (some [some { power.exampleSnapshot with Name := none }]) = none :=
  ⟨(c10_snapshots_fail_fast _ _).1.2 ⟨none, by simp [Slice.elems], Or.inl rfl⟩,
    (c10_snapshots_fail_fast _ _).1.2
      ⟨_, List.mem_singleton.2 rfl, Or.inr ⟨_, rfl, Or.inl rfl⟩⟩,
    (c10_snapshots_fail_fast _ _).1.2
      ⟨_, List.mem_singleton.2 rfl, Or.inr ⟨_, rfl, Or.inr rfl⟩⟩⟩

/-! ## The reads on a failure -/

namespace vpc

/-- The read when the client call fails. -/
theorem vni_read_client_error (host : Host) (session : ClientSession) (d : ResourceData)
    (client : VpcbetaV1) (e : String)
    (hc : session.VpcV1BetaAPI.1 = some client) (hce : session.VpcV1BetaAPI.2 = none)
    (he : (client.GetVirtualNetworkInterfaceWithContext
      { ID := some (d.getString "virtual_network_interface") }).2.2 = some e) :
    dataSourceIBMIsVirtualNetworkInterfaceRead host session d =
      Outcome.returned
        [{ Severity := diag.Severity.Error,
           Summary := "GetVirtualNetworkInterfaceWithContext failed " ++
            (e ++ "\n" ++ (client.GetVirtualNetworkInterfaceWithContext
              { ID := some (d.getString "virtual_network_interface") }).2.1) }] d := by
  unfold dataSourceIBMIsVirtualNetworkInterfaceRead
  simp only [ReadM.returnIf_bind_run, ReadM.deref_bind_run, ResourceData.GetString_bind_run,
    hc, hce, he, Option.isSome_none, Option.isSome_some, Bool.false_eq_true, if_false, if_true]
  rfl

end vpc

namespace power

/-- The read when `GetSnapShotVM` fails. -/
theorem snapshot_read_client_error (pkg : Package) (host : Host) (session : ClientSession)
    (d : ResourceData) (sess : IBMPISession) (e : String)
    (hc : session.IBMPISession.1 = some sess) (hce : session.IBMPISession.2 = none)
    (he : (sess.GetSnapShotVM (d.getString pkg.Arg_CloudInstanceID)
      (d.getString pkg.Arg_InstanceName)).2 = some e) :
    dataSourceIBMPISnapshotRead pkg host session d =
      Outcome.returned [{ Severity := diag.Severity.Error, Summary := e }] d := by
  unfold dataSourceIBMPISnapshotRead
  simp only [ReadM.returnIf_bind_run, ReadM.deref_bind_run, ResourceData.GetString_bind_run,
    hc, hce, he, Option.isSome_none, Option.isSome_some, Bool.false_eq_true, if_false, if_true]
  rfl

end power

theorem ReadM.returnIf_true (g : diag.Diagnostics) : ReadM.returnIf true g = ReadM.returnDiags g :=
  rfl

theorem ReadM.returnDiags_bind {α β : Type} (g : diag.Diagnostics) (f : α → ReadM β) :
    (ReadM.returnDiags g >>= f) = ReadM.returnDiags g := rfl

namespace vpc

/-- The read when the resolver of the target fails, `d.Set` having accepted
the eleven values written before it. -/
theorem read_target_error (host : Host) (session : ClientSession) (d : ResourceData)
    (client : VpcbetaV1) (vni : VirtualNetworkInterface) (id : String)
    (t : VirtualNetworkInterfaceTargetIntf) (e : String)
    (hc : session.VpcV1BetaAPI.1 = some client) (hce : session.VpcV1BetaAPI.2 = none)
    (hv : (client.GetVirtualNetworkInterfaceWithContext
      { ID := some (d.getString "virtual_network_interface") }).1 = some vni)
    (hve : (client.GetVirtualNetworkInterfaceWithContext
      { ID := some (d.getString "virtual_network_interface") }).2.2 = none)
    (hid : vni.ID = some id)
    (hset : ∀ kv ∈ writesBeforeTarget host vni, host.setError kv.1 kv.2 = none)
    (ht : vni.Target = some t)
    (hterr : (dataSourceIBMIsVirtualNetworkInterfaceVirtualNetworkInterfaceTargetToMap t).2 =
      some e) :
    dataSourceIBMIsVirtualNetworkInterfaceRead host session d =
      Outcome.returned [{ Severity := diag.Severity.Error, Summary := e }]
        { id := id, attrs := attributesBeforeTarget host vni d.attrs } := by
  have s1 : host.setError "auto_delete" (Value.boolPtr vni.AutoDelete) = none :=
    hset (_, _) (by simp [writesBeforeTarget])
  have s2 : host.setError "created_at" (Value.str (host.DateTimeToString vni.CreatedAt)) = none :=
    hset (_, _) (by simp [writesBeforeTarget])
  have s3 : host.setError "crn" (Value.strPtr vni.CRN) = none :=
    hset (_, _) (by simp [writesBeforeTarget])
  have s4 : host.setError "href" (Value.strPtr vni.Href) = none :=
    hset (_, _) (by simp [writesBeforeTarget])
  have s5 : host.setError "lifecycle_state" (Value.strPtr vni.LifecycleState) = none :=
    hset (_, _) (by simp [writesBeforeTarget])
  have s6 : host.setError "name" (Value.strPtr vni.Name) = none :=
    hset (_, _) (by simp [writesBeforeTarget])
  have s7 : host.setError "primary_ip" (Value.list (nestedObject
      (fun m => (dataSourceIBMIsVirtualNetworkInterfaceReservedIPReferenceToMap m).1)
      vni.PrimaryIP)) = none :=
    hset (_, _) (by simp [writesBeforeTarget])
  have s8 : host.setError "resource_group" (Value.list (nestedObject
      (fun m => (dataSourceIBMIsVirtualNetworkInterfaceResourceGroupReferenceToMap m).1)
      vni.ResourceGroup)) = none :=
    hset (_, _) (by simp [writesBeforeTarget])
  have s9 : host.setError "resource_type" (Value.strPtr vni.ResourceType) = none :=
    hset (_, _) (by simp [writesBeforeTarget])
  have s10 : host.setError "security_groups" (Value.list ((Slice.elems vni.SecurityGroups).map
      (fun m => (dataSourceIBMIsVirtualNetworkInterfaceSecurityGroupReferenceToMap m).1))) = none :=
    hset (_, _) (by simp [writesBeforeTarget])
  have s11 : host.setError "subnet" (Value.list (nestedObject
      (fun m => (dataSourceIBMIsVirtualNetworkInterfaceSubnetReferenceToMap m).1) vni.Subnet)) = none :=
    hset (_, _) (by simp [writesBeforeTarget])
  unfold dataSourceIBMIsVirtualNetworkInterfaceRead
  simp only [ReadM.returnIf_bind_run, ReadM.deref_bind_run, ResourceData.GetString_bind_run,
    ResourceData.SetId_bind_run, ResourceData.Set_check_run, hc, hce, hv, hve, hid,
    Option.isSome_none, Bool.false_eq_true, if_false, s1, s2, s3, s4, s5, s6]
  rw [ReadM.bind_run_of_next (nestedObject
    (fun m => (dataSourceIBMIsVirtualNetworkInterfaceReservedIPReferenceToMap m).1)
    vni.PrimaryIP) ?_]
  swap
  · intro d0
    cases vni.PrimaryIP <;>
      simp [nestedObject, reservedIPReferenceToMap_error, ReadM.returnIf_false, ReadM.pure_run]
  simp only [ResourceData.Set_check_run, s7]
  rw [ReadM.bind_run_of_next (nestedObject
    (fun m => (dataSourceIBMIsVirtualNetworkInterfaceResourceGroupReferenceToMap m).1)
    vni.ResourceGroup) ?_]
  swap
  · intro d0
    cases vni.ResourceGroup <;>
      simp [nestedObject, resourceGroupReferenceToMap_error, ReadM.returnIf_false,
        ReadM.pure_run]
  simp only [ResourceData.Set_check_run, s8, s9]
  rw [ReadM.bind_run_of_next ((Slice.elems vni.SecurityGroups).map
    (fun m => (dataSourceIBMIsVirtualNetworkInterfaceSecurityGroupReferenceToMap m).1)) ?_]
  swap
  · intro d0
    cases hs : vni.SecurityGroups <;>
      simp [Slice.elems, rangeSecurityGroups_run, ReadM.pure_run]
  simp only [ResourceData.Set_check_run, s10]
  rw [ReadM.bind_run_of_next (nestedObject
    (fun m => (dataSourceIBMIsVirtualNetworkInterfaceSubnetReferenceToMap m).1)
    vni.Subnet) ?_]
  swap
  · intro d0
    cases vni.Subnet <;>
      simp [nestedObject, subnetReferenceToMap_error, ReadM.returnIf_false, ReadM.pure_run]
  simp only [ResourceData.Set_check_run, s11, ht, hterr, Option.isSome_some,
    ReadM.returnIf_true, ReadM.returnDiags_bind, ReadM.returnDiags_run, diag.FromErr]
  rfl

end vpc

/-! ## The claims on the read operations -/

/-- Claim C11: when the call of the API client returns an error, each of the two
reads returns one error diagnostic at once and leaves the resource data as it
was, identifier and attributes: nothing is flattened, whatever model came with
the error, and no `d.SetId` or `d.Set` has run. -/
theorem c11_client_error_aborts_read :
    (∀ (host : vpc.Host) (session : vpc.ClientSession) (d : ResourceData)
      (client : vpc.VpcbetaV1) (e : String),
      session.VpcV1BetaAPI.1 = some client → session.VpcV1BetaAPI.2 = none →
      (client.GetVirtualNetworkInterfaceWithContext
        { ID := some (d.getString "virtual_network_interface") }).2.2 = some e →
      ∃ summary, vpc.dataSourceIBMIsVirtualNetworkInterfaceRead host session d =
        Outcome.returned [{ Severity := diag.Severity.Error, Summary := summary }] d) ∧
    (∀ (pkg : power.Package) (host : power.Host) (session : power.ClientSession)
      (d : ResourceData) (sess : power.IBMPISession) (e : String),
      session.IBMPISession.1 = some sess → session.IBMPISession.2 = none →
      (sess.GetSnapShotVM (d.getString pkg.Arg_CloudInstanceID)
        (d.getString pkg.Arg_InstanceName)).2 = some e →
      ∃ summary, power.dataSourceIBMPISnapshotRead pkg host session d =
        Outcome.returned [{ Severity := diag.Severity.Error, Summary := summary }] d) :=
  ⟨fun host session d client e hc hce he =>
      ⟨_, vpc.vni_read_client_error host session d client e hc hce he⟩,
    fun pkg host session d sess e hc hce he =>
      ⟨_, power.snapshot_read_client_error pkg host session d sess e hc hce he⟩⟩

theorem c11_client_error_aborts_read_witness :
    (∃ summary, vpc.dataSourceIBMIsVirtualNetworkInterfaceRead vpc.exampleHost
        vpc.exampleFailingSession vpc.exampleData =
      Outcome.returned [{ Severity := diag.Severity.Error, Summary := summary }]
        vpc.exampleData) ∧
    (∃ summary, power.dataSourceIBMPISnapshotRead power.examplePackage power.exampleHost
        power.exampleFailingSession power.exampleData =
      Outcome.returned [{ Severity := diag.Severity.Error, Summary := summary }]
        power.exampleData) :=
  ⟨c11_client_error_aborts_read.1 vpc.exampleHost vpc.exampleFailingSession vpc.exampleData
      vpc.exampleFailingClient "not found" rfl rfl rfl,
    c11_client_error_aborts_read.2 power.examplePackage power.exampleHost
      power.exampleFailingSession power.exampleData power.exampleFailingPISession "boom"
      rfl rfl rfl⟩

/-- Claim C12, as stated, fails for the read of the virtual network interface:
when the client fails with `not found` (the response printing as `404`), the
diagnostic the read returns does not carry the message `not found` but a longer
one made from it. -/
theorem c12_interface_read_rewrites_error :
    vpc.dataSourceIBMIsVirtualNetworkInterfaceRead vpc.exampleHost vpc.exampleFailingSession
        vpc.exampleData =
      Outcome.returned
        [{ Severity := diag.Severity.Error,
           Summary := "GetVirtualNetworkInterfaceWithContext failed not found\n404" }]
        vpc.exampleData ∧
    "GetVirtualNetworkInterfaceWithContext failed not found\n404" ≠ "not found" :=
  ⟨rfl, by decide⟩

/-- Claim C12, amended: when the client fails with the error `e`, the snapshot
read reports `e` as it is (the diagnostic's summary is the message of `e`),
and the read of the virtual network interface reports a new error whose
message is `GetVirtualNetworkInterfaceWithContext failed `, the message of
`e`, a line break and the response. -/
theorem c12_client_error_message :
    (∀ (pkg : power.Package) (host : power.Host) (session : power.ClientSession)
      (d : ResourceData) (sess : power.IBMPISession) (e : String),
      session.IBMPISession.1 = some sess → session.IBMPISession.2 = none →
      (sess.GetSnapShotVM (d.getString pkg.Arg_CloudInstanceID)
        (d.getString pkg.Arg_InstanceName)).2 = some e →
      power.dataSourceIBMPISnapshotRead pkg host session d =
        Outcome.returned (diag.FromErr (some e)) d ∧
      diag.FromErr (some e) = [{ Severity := diag.Severity.Error, Summary := e }]) ∧
    (∀ (host : vpc.Host) (session : vpc.ClientSession) (d : ResourceData)
      (client : vpc.VpcbetaV1) (e : String),
      session.VpcV1BetaAPI.1 = some client → session.VpcV1BetaAPI.2 = none →
      (client.GetVirtualNetworkInterfaceWithContext
        { ID := some (d.getString "virtual_network_interface") }).2.2 = some e →
      vpc.dataSourceIBMIsVirtualNetworkInterfaceRead host session d =
        Outcome.returned
          [{ Severity := diag.Severity.Error,
             Summary := "GetVirtualNetworkInterfaceWithContext failed " ++
              (e ++ "\n" ++ (client.GetVirtualNetworkInterfaceWithContext
                { ID := some (d.getString "virtual_network_interface") }).2.1) }] d) :=
  ⟨fun pkg host session d sess e hc hce he =>
      ⟨power.snapshot_read_client_error pkg host session d sess e hc hce he, rfl⟩,
    fun host session d client e hc hce he =>
      vpc.vni_read_client_error host session d client e hc hce he⟩

theorem c12_client_error_message_witness :
    power.dataSourceIBMPISnapshotRead power.examplePackage power.exampleHost
        power.exampleFailingSession power.exampleData =
      Outcome.returned (diag.FromErr (some "boom")) power.exampleData :=
  (c12_client_error_message.1 power.examplePackage power.exampleHost
    power.exampleFailingSession power.exampleData power.exampleFailingPISession "boom"
    rfl rfl rfl).1

/-- Claim C13, as stated, fails: the read of an interface whose target is of a
type the resolver does not know returns the unrecognized-subtype error, and the
resource data it leaves carries the identifier of the interface and the `name`
attribute, neither of which it had before the read. -/
theorem c13_failed_read_keeps_partial_state :
    vpc.dataSourceIBMIsVirtualNetworkInterfaceRead vpc.exampleHost
        vpc.exampleUnknownTargetSession vpc.exampleData =
      Outcome.returned
        [{ Severity := diag.Severity.Error,
           Summary :=
            "Unrecognized vpcbetav1.VirtualNetworkInterfaceTargetIntf subtype encountered" }]
        { id := "0717-vni",
          attrs := vpc.attributesBeforeTarget vpc.exampleHost vpc.exampleUnknownTargetInterface
            vpc.exampleData.attrs } ∧
    vpc.exampleData.id = "" ∧
    AttrMap.lookup vpc.exampleData.attrs "name" = none ∧
    AttrMap.lookup
        (vpc.attributesBeforeTarget vpc.exampleHost vpc.exampleUnknownTargetInterface
          vpc.exampleData.attrs) "name" =
      some (Value.strPtr (some "my-vni")) :=
  ⟨rfl, rfl, rfl, rfl⟩

/-- Claim C13, amended: when the resolver of the target fails during the read
(which it does only with the unrecognized-subtype error), `d.Set` having
accepted the eleven values the read wrote before it, the read returns that
error as its one diagnostic and undoes nothing: the resource data then carries
the identifier of the interface and the eleven attributes set before the
target, and `target`, `vpc` and `zone` are as they were before the read. -/
theorem c13_failed_target_keeps_earlier_writes (host : vpc.Host)
    (session : vpc.ClientSession) (d : ResourceData)
    (client : vpc.VpcbetaV1) (vni : vpc.VirtualNetworkInterface) (id : String)
    (t : vpc.VirtualNetworkInterfaceTargetIntf) (e : String)
    (hc : session.VpcV1BetaAPI.1 = some client) (hce : session.VpcV1BetaAPI.2 = none)
    (hv : (client.GetVirtualNetworkInterfaceWithContext
      { ID := some (d.getString "virtual_network_interface") }).1 = some vni)
    (hve : (client.GetVirtualNetworkInterfaceWithContext
      { ID := some (d.getString "virtual_network_interface") }).2.2 = none)
    (hid : vni.ID = some id)
    (hset : ∀ kv ∈ vpc.writesBeforeTarget host vni, host.setError kv.1 kv.2 = none)
    (ht : vni.Target = some t)
    (hterr : (vpc.dataSourceIBMIsVirtualNetworkInterfaceVirtualNetworkInterfaceTargetToMap t).2 =
      some e) :
    vpc.dataSourceIBMIsVirtualNetworkInterfaceRead host session d =
      Outcome.returned [{ Severity := diag.Severity.Error, Summary := e }]
        { id := id, attrs := vpc.attributesBeforeTarget host vni d.attrs } ∧
    e = "Unrecognized vpcbetav1.VirtualNetworkInterfaceTargetIntf subtype encountered" ∧
    (∀ k ∈ vpc.keysBeforeTarget,
      AttrMap.lookup (vpc.attributesBeforeTarget host vni d.attrs) k ≠ none) ∧
    (∀ k ∈ ["target", "vpc", "zone"],
      AttrMap.lookup (vpc.attributesBeforeTarget host vni d.attrs) k =
        AttrMap.lookup d.attrs k) := by
  refine ⟨vpc.read_target_error host session d client vni id t e hc hce hv hve hid hset ht hterr,
    ?_, ?_, ?_⟩
  · cases t with
    | shareMountTargetReference m =>
      rw [vpc.targetToMap_shareMountTargetReference, vpc.shareMountTargetReferenceToMap_error]
        at hterr
      cases hterr
    | target m =>
      rw [vpc.targetToMap_target_error] at hterr
      cases hterr
    | other n =>
      rw [vpc.targetToMap_other] at hterr
      cases hterr
      rfl
  · intro k hk
    simp only [vpc.keysBeforeTarget, List.mem_cons, List.mem_singleton, List.not_mem_nil,
      or_false] at hk
    rcases hk with rfl | rfl | rfl | rfl | rfl | rfl | rfl | rfl | rfl | rfl | rfl <;>
      simp [vpc.attributesBeforeTarget, vpc.writesBeforeTarget, List.foldl,
        AttrMap.lookup_store]
  · intro k hk
    simp only [List.mem_cons, List.mem_singleton, List.not_mem_nil, or_false] at hk
    rcases hk with rfl | rfl | rfl <;>
      simp [vpc.attributesBeforeTarget, vpc.writesBeforeTarget, List.foldl,
        AttrMap.lookup_store]

theorem c13_failed_target_keeps_earlier_writes_witness :
    vpc.dataSourceIBMIsVirtualNetworkInterfaceRead vpc.exampleCheckingHost
        vpc.exampleUnknownTargetSession vpc.exampleData =
      Outcome.returned
        [{ Severity := diag.Severity.Error,
           Summary :=
            "Unrecognized vpcbetav1.VirtualNetworkInterfaceTargetIntf subtype encountered" }]
        { id := "0717-vni",
          attrs := vpc.attributesBeforeTarget vpc.exampleCheckingHost
            vpc.exampleUnknownTargetInterface vpc.exampleData.attrs } ∧
    vpc.exampleCheckingHost.setError "auto_delete" (Value.list []) ≠ none :=
  ⟨(c13_failed_target_keeps_earlier_writes vpc.exampleCheckingHost
    vpc.exampleUnknownTargetSession
    vpc.exampleData vpc.exampleUnknownTargetClient vpc.exampleUnknownTargetInterface "0717-vni"
    (vpc.VirtualNetworkInterfaceTargetIntf.other "InstanceNetworkAttachment")
    "Unrecognized vpcbetav1.VirtualNetworkInterfaceTargetIntf subtype encountered"
    rfl rfl rfl rfl rfl
    (by
      intro kv hkv
      simp only [vpc.writesBeforeTarget, List.mem_cons, List.mem_singleton, List.not_mem_nil,
        or_false] at hkv
      rcases hkv with rfl | rfl | rfl | rfl | rfl | rfl | rfl | rfl | rfl | rfl | rfl <;> rfl)
    rfl rfl).1, fun h => Option.noConfusion h⟩

/-! ## The claims on the schema and on totality -/

namespace vpc

theorem emitsExactly_of {α : Type} (flatten : α → AttrMap) (declared : schema.Resource)
    (names : List String) (hn : declared.names = names)
    (h1 : ∀ model, (AttrMap.keys (flatten model)).all (fun k => decide (k ∈ names)) = true)
    (full : α)
    (h2 : names.all (fun k => decide (k ∈ AttrMap.keys (flatten full))) = true) :
    EmitsExactly flatten declared := by
  rw [EmitsExactly, hn]
  constructor
  · intro model k hk
    have := List.all_eq_true.1 (h1 model) k hk
    simpa using this
  · intro k hk
    have := List.all_eq_true.1 h2 k hk
    exact ⟨full, by simpa using this⟩

/-- Claim C14: for each of `primary_ip`, `resource_group`, `security_groups`,
`subnet`, `target`, `vpc` and `zone`, every key of every record the flattener
of the attribute emits is an attribute name declared in the nested schema of
the attribute, and every name declared there is emitted for some input; the
same holds of the nested `deleted` records against the nested schema of
`deleted`.  For `target` it holds of the resolver as a whole, of the
share-mount-target flattener, and of the resolver on each of its two variants
apart. -/
theorem c14_keys_are_the_declared_names :
    EmitsExactly (fun model => (dataSourceIBMIsVirtualNetworkInterfaceReservedIPReferenceToMap model).1)
      (DataSourceIBMIsVirtualNetworkInterface.nested "primary_ip") ∧
    EmitsExactly (fun model => (dataSourceIBMIsVirtualNetworkInterfaceReservedIPReferenceDeletedToMap model).1)
      ((DataSourceIBMIsVirtualNetworkInterface.nested "primary_ip").nested "deleted") ∧
    EmitsExactly (fun model => (dataSourceIBMIsVirtualNetworkInterfaceResourceGroupReferenceToMap model).1)
      (DataSourceIBMIsVirtualNetworkInterface.nested "resource_group") ∧
    EmitsExactly (fun model => (dataSourceIBMIsVirtualNetworkInterfaceSecurityGroupReferenceToMap model).1)
      (DataSourceIBMIsVirtualNetworkInterface.nested "security_groups") ∧
    EmitsExactly (fun model => (dataSourceIBMIsVirtualNetworkInterfaceSecurityGroupReferenceDeletedToMap model).1)
      ((DataSourceIBMIsVirtualNetworkInterface.nested "security_groups").nested "deleted") ∧
    EmitsExactly (fun model => (dataSourceIBMIsVirtualNetworkInterfaceSubnetReferenceToMap model).1)
      (DataSourceIBMIsVirtualNetworkInterface.nested "subnet") ∧
    EmitsExactly (fun model => (dataSourceIBMIsVirtualNetworkInterfaceSubnetReferenceDeletedToMap model).1)
      ((DataSourceIBMIsVirtualNetworkInterface.nested "subnet").nested "deleted") ∧
    EmitsExactly targetRecord (DataSourceIBMIsVirtualNetworkInterface.nested "target") ∧
    EmitsExactly
      (fun model =>
        (dataSourceIBMIsVirtualNetworkInterfaceVirtualNetworkInterfaceTargetShareMountTargetReferenceToMap model).1)
      (DataSourceIBMIsVirtualNetworkInterface.nested "target") ∧
    EmitsExactly
      (fun model => targetRecord (VirtualNetworkInterfaceTargetIntf.shareMountTargetReference model))
      (DataSourceIBMIsVirtualNetworkInterface.nested "target") ∧
    EmitsExactly (fun model => targetRecord (VirtualNetworkInterfaceTargetIntf.target model))
      (DataSourceIBMIsVirtualNetworkInterface.nested "target") ∧
    EmitsExactly (fun model => (dataSourceIBMIsVirtualNetworkInterfaceShareMountTargetReferenceDeletedToMap model).1)
      ((DataSourceIBMIsVirtualNetworkInterface.nested "target").nested "deleted") ∧
    EmitsExactly (fun model => (dataSourceIBMIsVirtualNetworkInterfaceVPCReferenceToMap model).1)
      (DataSourceIBMIsVirtualNetworkInterface.nested "vpc") ∧
    EmitsExactly (fun model => (dataSourceIBMIsVirtualNetworkInterfaceVPCReferenceDeletedToMap model).1)
      ((DataSourceIBMIsVirtualNetworkInterface.nested "vpc").nested "deleted") ∧
    EmitsExactly (fun model => (dataSourceIBMIsVirtualNetworkInterfaceZoneReferenceToMap model).1)
      (DataSourceIBMIsVirtualNetworkInterface.nested "zone") := by
  refine ⟨?_, ?_, ?_, ?_, ?_, ?_, ?_, ?_, ?_, ?_, ?_, ?_, ?_, ?_, ?_⟩
  · refine emitsExactly_of _ _ ["address", "deleted", "href", "id", "name", "resource_type"] rfl ?_ ⟨some "", some ⟨some ""⟩, some "", some "", some "", some ""⟩ rfl
    intro model
    rcases model with ⟨_ | a0, _ | ⟨_ | mi⟩, _ | h2, _ | i3, _ | n4, _ | r5⟩ <;> rfl
  · refine emitsExactly_of _ _ ["more_info"] rfl ?_ ⟨some ""⟩ rfl
    intro model
    rcases model with ⟨_ | s⟩ <;> rfl
  · refine emitsExactly_of _ _ ["href", "id", "name"] rfl ?_ ⟨some "", some "", some ""⟩ rfl
    intro model
    rcases model with ⟨_ | h0, _ | i1, _ | n2⟩ <;> rfl
  · refine emitsExactly_of _ _ ["crn", "deleted", "href", "id", "name"] rfl ?_ ⟨some "", some ⟨some ""⟩, some "", some "", some ""⟩ rfl
    intro model
    rcases model with ⟨_ | c0, _ | ⟨_ | mi⟩, _ | h2, _ | i3, _ | n4⟩ <;> rfl
  · refine emitsExactly_of _ _ ["more_info"] rfl ?_ ⟨some ""⟩ rfl
    intro model
    rcases model with ⟨_ | s⟩ <;> rfl
  · refine emitsExactly_of _ _ ["crn", "deleted", "href", "id", "name", "resource_type"] rfl ?_ ⟨some "", some ⟨some ""⟩, some "", some "", some "", some ""⟩ rfl
    intro model
    rcases model with ⟨_ | c0, _ | ⟨_ | mi⟩, _ | h2, _ | i3, _ | n4, _ | r5⟩ <;> rfl
  · refine emitsExactly_of _ _ ["more_info"] rfl ?_ ⟨some ""⟩ rfl
    intro model
    rcases model with ⟨_ | s⟩ <;> rfl
  · refine emitsExactly_of _ _ ["deleted", "href", "id", "name", "resource_type"] rfl ?_
      (VirtualNetworkInterfaceTargetIntf.target ⟨some ⟨some ""⟩, some "", some "", some "", some ""⟩) rfl
    intro model
    rcases model with ⟨_ | ⟨_ | mi⟩, _ | h1, _ | i2, _ | n3, _ | r4⟩ | ⟨_ | ⟨_ | mi⟩, _ | h1, _ | i2, _ | n3, _ | r4⟩ | n <;> rfl
  · refine emitsExactly_of _ _ ["deleted", "href", "id", "name", "resource_type"] rfl ?_
      ⟨some ⟨some ""⟩, some "", some "", some "", some ""⟩ rfl
    intro model
    rcases model with ⟨_ | ⟨_ | mi⟩, _ | h1, _ | i2, _ | n3, _ | r4⟩ <;> rfl
  · refine emitsExactly_of _ _ ["deleted", "href", "id", "name", "resource_type"] rfl ?_
      ⟨some ⟨some ""⟩, some "", some "", some "", some ""⟩ rfl
    intro model
    rcases model with ⟨_ | ⟨_ | mi⟩, _ | h1, _ | i2, _ | n3, _ | r4⟩ <;> rfl
  · refine emitsExactly_of _ _ ["deleted", "href", "id", "name", "resource_type"] rfl ?_
      ⟨some ⟨some ""⟩, some "", some "", some "", some ""⟩ rfl
    intro model
    rcases model with ⟨_ | ⟨_ | mi⟩, _ | h1, _ | i2, _ | n3, _ | r4⟩ <;> rfl
  · refine emitsExactly_of _ _ ["more_info"] rfl ?_ ⟨some ""⟩ rfl
    intro model
    rcases model with ⟨_ | s⟩ <;> rfl
  · refine emitsExactly_of _ _ ["crn", "deleted", "href", "id", "name", "resource_type"] rfl ?_ ⟨some "", some ⟨some ""⟩, some "", some "", some "", some ""⟩ rfl
    intro model
    rcases model with ⟨_ | c0, _ | ⟨_ | mi⟩, _ | h2, _ | i3, _ | n4, _ | r5⟩ <;> rfl
  · refine emitsExactly_of _ _ ["more_info"] rfl ?_ ⟨some ""⟩ rfl
    intro model
    rcases model with ⟨_ | s⟩ <;> rfl
  · refine emitsExactly_of _ _ ["href", "name"] rfl ?_ ⟨some "", some ""⟩ rfl
    intro model
    rcases model with ⟨_ | h0, _ | n1⟩ <;> rfl

/-- Claim C15: on every model, whatever fields are nil, each concrete flattener
(reserved IP, resource group, security group, subnet, VPC, zone, share-mount
target and the five deleted-marker flatteners) returns a record together with a
nil error; the deleted-marker flatteners never return an error, so the
error-return branch after the nested deleted flattening is never taken. -/
theorem c15_flatteners_return_no_error :
    (∀ model : ReservedIPReference, ∃ record,
      dataSourceIBMIsVirtualNetworkInterfaceReservedIPReferenceToMap model = (record, none)) ∧
    (∀ model : ResourceGroupReference, ∃ record,
      dataSourceIBMIsVirtualNetworkInterfaceResourceGroupReferenceToMap model = (record, none)) ∧
    (∀ model : SecurityGroupReference, ∃ record,
      dataSourceIBMIsVirtualNetworkInterfaceSecurityGroupReferenceToMap model = (record, none)) ∧
    (∀ model : SubnetReference, ∃ record,
      dataSourceIBMIsVirtualNetworkInterfaceSubnetReferenceToMap model = (record, none)) ∧
    (∀ model : VPCReference, ∃ record,
      dataSourceIBMIsVirtualNetworkInterfaceVPCReferenceToMap model = (record, none)) ∧
    (∀ model : ZoneReference, ∃ record,
      dataSourceIBMIsVirtualNetworkInterfaceZoneReferenceToMap model = (record, none)) ∧
    (∀ model : VirtualNetworkInterfaceTargetShareMountTargetReference, ∃ record,
      dataSourceIBMIsVirtualNetworkInterfaceVirtualNetworkInterfaceTargetShareMountTargetReferenceToMap model = (record, none)) ∧
    (∀ model : ReservedIPReferenceDeleted, ∃ record,
      dataSourceIBMIsVirtualNetworkInterfaceReservedIPReferenceDeletedToMap model = (record, none)) ∧
    (∀ model : SecurityGroupReferenceDeleted, ∃ record,
      dataSourceIBMIsVirtualNetworkInterfaceSecurityGroupReferenceDeletedToMap model = (record, none)) ∧
    (∀ model : SubnetReferenceDeleted, ∃ record,
      dataSourceIBMIsVirtualNetworkInterfaceSubnetReferenceDeletedToMap model = (record, none)) ∧
    (∀ model : ShareMountTargetReferenceDeleted, ∃ record,
      dataSourceIBMIsVirtualNetworkInterfaceShareMountTargetReferenceDeletedToMap model = (record, none)) ∧
    (∀ model : VPCReferenceDeleted, ∃ record,
      dataSourceIBMIsVirtualNetworkInterfaceVPCReferenceDeletedToMap model = (record, none)) := by
  refine ⟨?_, ?_, ?_, ?_, ?_, ?_, ?_, ?_, ?_, ?_, ?_, ?_⟩
  · intro model
    exact ⟨_, Prod.ext rfl (reservedIPReferenceToMap_error model)⟩
  · intro model
    exact ⟨_, Prod.ext rfl (resourceGroupReferenceToMap_error model)⟩
  · intro model
    exact ⟨_, Prod.ext rfl (securityGroupReferenceToMap_error model)⟩
  · intro model
    exact ⟨_, Prod.ext rfl (subnetReferenceToMap_error model)⟩
  · intro model
    exact ⟨_, Prod.ext rfl (vpcReferenceToMap_error model)⟩
  · intro model
    exact ⟨_, Prod.ext rfl (zoneReferenceToMap_error model)⟩
  · intro model
    exact ⟨_, Prod.ext rfl (shareMountTargetReferenceToMap_error model)⟩
  · intro model
    exact ⟨_, reservedIPReferenceDeletedToMap_eq model⟩
  · intro model
    exact ⟨_, securityGroupReferenceDeletedToMap_eq model⟩
  · intro model
    exact ⟨_, subnetReferenceDeletedToMap_eq model⟩
  · intro model
    exact ⟨_, shareMountTargetReferenceDeletedToMap_eq model⟩
  · intro model
    exact ⟨_, vpcReferenceDeletedToMap_eq model⟩

end vpc
